import Mathlib

/-!
# Storefront client (`frontend/src/App.jsx`)

A shallow embedding of the single React component `App`: its state hooks, the
`fetch*` helpers, the four mutating actions, the derived cart total and the
session-identifier initialiser.  The backend is not part of the component; it
appears as a parameter `srv : Server W`, an arbitrary transition system over a
state type `W` that answers each HTTP request.
-/

namespace Storefront

/-! ## Data model -/

/-- Product identifiers are opaque values compared with `===`. -/
abbrev ProductId := Nat

/-- A product as delivered by `GET /api/products`. -/
structure Product where
  id : ProductId
  name : String
  description : String
  price : ℚ
  stock : Int
  image_url : String
  deriving DecidableEq

/-- A cart line: `{product_id, quantity}`. -/
structure CartItem where
  product_id : ProductId
  quantity : Int
  deriving DecidableEq

/-- A line of a stored order. -/
structure OrderItem where
  product_name : String
  quantity : Int
  price : ℚ
  deriving DecidableEq

/-- An order as delivered by `POST /api/orders` and `GET /api/orders`. -/
structure Order where
  id : String
  created_at : String
  status : String
  items : List OrderItem
  total : ℚ
  deriving DecidableEq

/-- The JSON object answered by `GET /api/cart/{sessionId}`; `items` is `none`
when the object has no (or a null) `items` member, so that `data.items || []`
is `data.items.getD []`. -/
structure CartBody where
  items : Option (List CartItem)
  deriving DecidableEq

/-- The state hooks of `App` (lines 7-13); `error = none` is `null`. -/
structure Client where
  products : List Product
  cart : List CartItem
  orders : List Order
  loading : Bool
  error : Option String
  showCart : Bool
  showOrders : Bool
  deriving DecidableEq

/-- The initial values of the state hooks. -/
def Client.init : Client :=
  { products := [], cart := [], orders := [], loading := true, error := none,
    showCart := false, showOrders := false }

/-! ## The HTTP boundary -/

/-- The requests the component issues, one constructor per `fetch` call site. -/
inductive Request where
  /-- `GET /api/products` -/
  | getProducts
  /-- `GET /api/cart/{sessionId}` -/
  | getCart (sessionId : String)
  /-- `GET /api/orders` -/
  | getOrders
  /-- `POST /api/cart/{sessionId}/items` with body `{product_id, quantity}` -/
  | postItem (sessionId : String) (product_id : ProductId) (quantity : Int)
  /-- `PUT /api/cart/{sessionId}/items/{productId}` with body `{product_id, quantity}` -/
  | putItem (sessionId : String) (productId : ProductId) (quantity : Int)
  /-- `DELETE /api/cart/{sessionId}/items/{productId}` -/
  | deleteItem (sessionId : String) (productId : ProductId)
  /-- `DELETE /api/cart/{sessionId}` -/
  | deleteCart (sessionId : String)
  /-- `POST /api/orders` with body `{cart_items}` -/
  | postOrder (cart_items : List CartItem)
  deriving DecidableEq

/-- The type of the JSON body of a successful answer to each request; the
bodies the component never reads are `Unit`. -/
abbrev Payload : Request → Type
  | .getProducts => List Product
  | .getCart _ => CartBody
  | .getOrders => List Order
  | .postItem _ _ _ => Unit
  | .putItem _ _ _ => Unit
  | .deleteItem _ _ => Unit
  | .deleteCart _ => Unit
  | .postOrder _ => Order

/-- How an awaited `fetch` settles.
* `netError m`: the promise rejects (transport failure) with an error whose
  message is `m`;
* `notOk b`: a response with `response.ok` false; `b` is what reading
  `(await response.json()).detail` gives: `.error m` when that throws an error
  with message `m`, `.ok none` when there is no `detail`, `.ok (some d)` for the
  string `d`;
* `ok b`: a response with `response.ok` true; `b` is what `await response.json()`
  gives: `.error m` when it rejects, `.ok data` otherwise. -/
inductive Resp (α : Type) where
  | netError (message : String)
  | notOk (body : Except String (Option String))
  | ok (body : Except String α)

/-- A request failed: transport error or non-2xx status. -/
def Resp.failed {α : Type} : Resp α → Bool
  | .netError _ => true
  | .notOk _ => true
  | .ok _ => false

/-- A request was answered with an HTTP status, 2xx or not: the `fetch` promise
did not reject. -/
def Resp.answered {α : Type} : Resp α → Bool
  | .netError _ => false
  | .notOk _ => true
  | .ok _ => true

/-- The backend: any transition system answering requests. -/
abbrev Server (W : Type) := (r : Request) → W → Resp (Payload r) × W

/-- What the component does that is visible outside its state. -/
inductive Event where
  | request (r : Request)
  | alert (message : String)
  | consoleError (label : String) (message : String)
  deriving DecidableEq

/-- The result of running an action to completion. -/
structure Outcome (W : Type) where
  client : Client
  server : W
  trace : List Event

/-- Sequencing of two awaited steps. -/
def Outcome.andThen {W : Type} (o : Outcome W) (f : Client → W → Outcome W) : Outcome W :=
  let o' := f o.client o.server
  { o' with trace := o.trace ++ o'.trace }

/-- The requests of a trace, in order. -/
def requestsOf : List Event → List Request
  | [] => []
  | .request r :: es => r :: requestsOf es
  | _ :: es => requestsOf es

/-- The alerts of a trace, in order. -/
def alertsOf : List Event → List String
  | [] => []
  | .alert m :: es => m :: alertsOf es
  | _ :: es => alertsOf es

/-- `new Error(error.detail).message`: the empty string when `detail` is
undefined. -/
def detailMessage (detail : Option String) : String := detail.getD ""

/-! ## The fetch helpers (lines 25-58) -/

/-- `fetchProducts` (lines 25-36). -/
def fetchProducts {W : Type} (srv : Server W) (c : Client) (w : W) : Outcome W :=
  match srv .getProducts w with
  | (.ok (.ok data), w') =>
      ⟨{ c with products := data, loading := false }, w', [.request .getProducts]⟩
  | (.ok (.error m), w') =>
      ⟨{ c with error := some m, loading := false }, w', [.request .getProducts]⟩
  | (.notOk _, w') =>
      ⟨{ c with error := some "Failed to fetch products", loading := false }, w',
        [.request .getProducts]⟩
  | (.netError m, w') =>
      ⟨{ c with error := some m, loading := false }, w', [.request .getProducts]⟩

/-- `fetchCart` (lines 38-47). -/
def fetchCart {W : Type} (srv : Server W) (sessionId : String) (c : Client) (w : W) :
    Outcome W :=
  match srv (.getCart sessionId) w with
  | (.ok (.ok data), w') =>
      ⟨{ c with cart := data.items.getD [] }, w', [.request (.getCart sessionId)]⟩
  | (.ok (.error m), w') =>
      ⟨c, w', [.request (.getCart sessionId), .consoleError "Error fetching cart:" m]⟩
  | (.notOk _, w') =>
      ⟨c, w', [.request (.getCart sessionId),
        .consoleError "Error fetching cart:" "Failed to fetch cart"]⟩
  | (.netError m, w') =>
      ⟨c, w', [.request (.getCart sessionId), .consoleError "Error fetching cart:" m]⟩

/-- `fetchOrders` (lines 49-58). -/
def fetchOrders {W : Type} (srv : Server W) (c : Client) (w : W) : Outcome W :=
  match srv .getOrders w with
  | (.ok (.ok data), w') => ⟨{ c with orders := data }, w', [.request .getOrders]⟩
  | (.ok (.error m), w') =>
      ⟨c, w', [.request .getOrders, .consoleError "Error fetching orders:" m]⟩
  | (.notOk _, w') =>
      ⟨c, w', [.request .getOrders,
        .consoleError "Error fetching orders:" "Failed to fetch orders"]⟩
  | (.netError m, w') =>
      ⟨c, w', [.request .getOrders, .consoleError "Error fetching orders:" m]⟩

/-! ## The mutating actions (lines 60-138) -/

/-- `addToCart` (lines 60-76). -/
def addToCart {W : Type} (srv : Server W) (sessionId : String) (productId : ProductId)
    (c : Client) (w : W) : Outcome W :=
  let r := Request.postItem sessionId productId 1
  match srv r w with
  | (.netError m, w') => ⟨c, w', [.request r, .alert m]⟩
  | (.notOk (.error m), w') => ⟨c, w', [.request r, .alert m]⟩
  | (.notOk (.ok detail), w') => ⟨c, w', [.request r, .alert (detailMessage detail)]⟩
  | (.ok _, w') =>
      ((Outcome.mk c w' [.request r]).andThen (fetchCart srv sessionId)).andThen
        (fetchProducts srv)

/-- `removeFromCart` (lines 99-109). -/
def removeFromCart {W : Type} (srv : Server W) (sessionId : String) (productId : ProductId)
    (c : Client) (w : W) : Outcome W :=
  let r := Request.deleteItem sessionId productId
  match srv r w with
  | (.netError m, w') => ⟨c, w', [.request r, .alert m]⟩
  | (.notOk _, w') => ⟨c, w', [.request r, .alert "Failed to remove item"]⟩
  | (.ok _, w') => (Outcome.mk c w' [.request r]).andThen (fetchCart srv sessionId)

/-- `updateCartItem` (lines 78-97). -/
def updateCartItem {W : Type} (srv : Server W) (sessionId : String) (productId : ProductId)
    (quantity : Int) (c : Client) (w : W) : Outcome W :=
  if quantity = 0 then
    removeFromCart srv sessionId productId c w
  else
    let r := Request.putItem sessionId productId quantity
    match srv r w with
    | (.netError m, w') => ⟨c, w', [.request r, .alert m]⟩
    | (.notOk (.error m), w') => ⟨c, w', [.request r, .alert m]⟩
    | (.notOk (.ok detail), w') => ⟨c, w', [.request r, .alert (detailMessage detail)]⟩
    | (.ok _, w') => (Outcome.mk c w' [.request r]).andThen (fetchCart srv sessionId)

/-- The text of the alert shown after a successful order creation (line 128). -/
def orderCreatedMessage (order : Order) : String :=
  "Order created successfully! Order ID: " ++ order.id

/-- `createOrder` (lines 111-138). -/
def createOrder {W : Type} (srv : Server W) (sessionId : String) (c : Client) (w : W) :
    Outcome W :=
  if c.cart.length = 0 then
    ⟨c, w, [.alert "Cart is empty"]⟩
  else
    let r := Request.postOrder c.cart
    match srv r w with
    | (.netError m, w₁) => ⟨c, w₁, [.request r, .alert m]⟩
    | (.notOk (.error m), w₁) => ⟨c, w₁, [.request r, .alert m]⟩
    | (.notOk (.ok detail), w₁) => ⟨c, w₁, [.request r, .alert (detailMessage detail)]⟩
    | (.ok (.error m), w₁) => ⟨c, w₁, [.request r, .alert m]⟩
    | (.ok (.ok order), w₁) =>
        let pre : List Event :=
          [.request r, .alert (orderCreatedMessage order), .request (.deleteCart sessionId)]
        match srv (.deleteCart sessionId) w₁ with
        | (.netError m, w₂) => ⟨c, w₂, pre ++ [.alert m]⟩
        | (_, w₂) =>
            (((Outcome.mk c w₂ pre).andThen (fetchCart srv sessionId)).andThen
              (fetchProducts srv)).andThen
              (fun c' w' => ⟨{ c' with showCart := false }, w', []⟩)

/-! ## Derived values (lines 140-149) -/

/-- The value `getCartTotal` (lines 140-145) holds before `.toFixed(2)`, prices
being exact rationals. -/
def getCartTotal (products : List Product) (cart : List CartItem) : ℚ :=
  cart.foldl
    (fun total item =>
      let product := products.find? (fun p => p.id == item.product_id)
      total + (match product with
        | some p => p.price * item.quantity
        | none => 0))
    0

/-- `getCartItemCount` (lines 147-149). -/
def getCartItemCount (cart : List CartItem) : Int :=
  cart.foldl (fun total item => total + item.quantity) 0

/-! ## The actions as one family -/

/-- The four mutating actions with their parameters. -/
inductive Action where
  | addToCart (productId : ProductId)
  | updateCartItem (productId : ProductId) (quantity : Int)
  | removeFromCart (productId : ProductId)
  | createOrder
  deriving DecidableEq

/-- Run an action to completion. -/
def perform {W : Type} (srv : Server W) (sessionId : String) :
    Action → Client → W → Outcome W
  | .addToCart productId => addToCart srv sessionId productId
  | .updateCartItem productId quantity => updateCartItem srv sessionId productId quantity
  | .removeFromCart productId => removeFromCart srv sessionId productId
  | .createOrder => createOrder srv sessionId

/-- The mutating request of an action, the first `fetch` of its body: the POST
of `addToCart`, the PUT of `updateCartItem` (the DELETE when the quantity is 0),
the DELETE of `removeFromCart`, the order POST of `createOrder` (none when the
local cart is empty). -/
def mutatingRequest (sessionId : String) (c : Client) : Action → Option Request
  | .addToCart productId => some (.postItem sessionId productId 1)
  | .updateCartItem productId quantity =>
      if quantity = 0 then some (.deleteItem sessionId productId)
      else some (.putItem sessionId productId quantity)
  | .removeFromCart productId => some (.deleteItem sessionId productId)
  | .createOrder => if c.cart.length = 0 then none else some (.postOrder c.cart)

/-! ## Session identifier (lines 14-23) -/

/-- The browser's `localStorage`: a value per key, `none` for `null`. -/
abbrev Storage := String → Option String

/-- Accessor `localStorage.getItem(key)`. -/
def Storage.getItem (storage : Storage) (key : String) : Option String := storage key

/-- Mutator `localStorage.setItem(key, value)`. -/
def Storage.setItem (storage : Storage) (key value : String) : Storage :=
  fun k => if k = key then some value else storage k

/-- The template string `session-${Date.now()}` at clock value `now`. -/
def freshSessionId (now : Nat) : String := "session-" ++ toString now

/-- The initialiser of the `sessionId` hook (lines 14-17): `saved || fresh`,
where `null` and the empty string are falsy. -/
def initSessionId (storage : Storage) (now : Nat) : String :=
  match storage.getItem "sessionId" with
  | some saved => if saved = "" then freshSessionId now else saved
  | none => freshSessionId now

/-- One application startup: the initialiser, then the effect's
`localStorage.setItem('sessionId', sessionId)` (line 20).  Returns the session
identifier and the storage left behind. -/
def startup (storage : Storage) (now : Nat) : String × Storage :=
  let sessionId := initSessionId storage now
  (sessionId, storage.setItem "sessionId" sessionId)

/-! ## The component as a step function

Each call of an `async` function is suspended at exactly one `await` at a time.
A `Task` names the await point of one in-flight call; the step function either
dispatches a click of a rendered control or settles the awaited `fetch` of one
pending task. -/

/-- The await points of the in-flight calls. -/
inductive Task where
  /-- Call of `fetchProducts` from the mount effect, awaiting its GET. -/
  | loadProducts
  /-- Call of `fetchCart` from the mount effect, awaiting its GET. -/
  | loadCart
  /-- Call of `fetchOrders` from the Orders button, awaiting its GET. -/
  | loadOrders
  /-- Call of `addToCart`, awaiting the POST. -/
  | addPost (productId : ProductId)
  /-- Call of `addToCart`, awaiting `fetchCart()`. -/
  | addCart
  /-- Call of `addToCart`, awaiting `fetchProducts()`. -/
  | addProducts
  /-- Call of `updateCartItem`, awaiting the PUT. -/
  | updatePut (productId : ProductId) (quantity : Int)
  /-- Call of `updateCartItem`, awaiting `fetchCart()`. -/
  | updateCart
  /-- Call of `removeFromCart` (directly or from `updateCartItem(id, 0)`),
  awaiting the DELETE. -/
  | removeDelete (productId : ProductId)
  /-- Call of `removeFromCart`, awaiting `fetchCart()`. -/
  | removeCart
  /-- Call of `createOrder`, awaiting the order POST. -/
  | orderPost (cart_items : List CartItem)
  /-- Call of `createOrder`, awaiting the clear-cart DELETE. -/
  | orderClear
  /-- Call of `createOrder`, awaiting `fetchCart()`. -/
  | orderCart
  /-- Call of `createOrder`, awaiting `fetchProducts()`. -/
  | orderProducts
  deriving DecidableEq

/-- The request a task is waiting for. -/
def Task.request (sessionId : String) : Task → Request
  | .loadProducts => .getProducts
  | .loadCart => .getCart sessionId
  | .loadOrders => .getOrders
  | .addPost productId => .postItem sessionId productId 1
  | .addCart => .getCart sessionId
  | .addProducts => .getProducts
  | .updatePut productId quantity => .putItem sessionId productId quantity
  | .updateCart => .getCart sessionId
  | .removeDelete productId => .deleteItem sessionId productId
  | .removeCart => .getCart sessionId
  | .orderPost cart_items => .postOrder cart_items
  | .orderClear => .deleteCart sessionId
  | .orderCart => .getCart sessionId
  | .orderProducts => .getProducts

/-- The task belongs to a mutating action (add, update, remove, checkout). -/
def Task.isMutation : Task → Bool
  | .loadProducts => false
  | .loadCart => false
  | .loadOrders => false
  | _ => true

/-- A settled `fetch` together with the type of body it carries. -/
inductive Settled where
  | products (resp : Resp (List Product))
  | cart (resp : Resp CartBody)
  | orders (resp : Resp (List Order))
  | order (resp : Resp Order)
  | unit (resp : Resp Unit)

/-- The answer to a request, as a settled `fetch`. -/
def Settled.of : (r : Request) → Resp (Payload r) → Settled
  | .getProducts, resp => .products resp
  | .getCart _, resp => .cart resp
  | .getOrders, resp => .orders resp
  | .postItem _ _ _, resp => .unit resp
  | .putItem _ _ _, resp => .unit resp
  | .deleteItem _ _, resp => .unit resp
  | .deleteCart _, resp => .unit resp
  | .postOrder _, resp => .order resp

/-- The body of `fetchProducts` after its `fetch` settled. -/
def settleProducts (resp : Resp (List Product)) (c : Client) : Client :=
  match resp with
  | .ok (.ok data) => { c with products := data, loading := false }
  | .ok (.error m) => { c with error := some m, loading := false }
  | .notOk _ => { c with error := some "Failed to fetch products", loading := false }
  | .netError m => { c with error := some m, loading := false }

/-- The body of `fetchCart` after its `fetch` settled. -/
def settleCart (resp : Resp CartBody) (c : Client) : Client × List Event :=
  match resp with
  | .ok (.ok data) => ({ c with cart := data.items.getD [] }, [])
  | .ok (.error m) => (c, [.consoleError "Error fetching cart:" m])
  | .notOk _ => (c, [.consoleError "Error fetching cart:" "Failed to fetch cart"])
  | .netError m => (c, [.consoleError "Error fetching cart:" m])

/-- The body of `fetchOrders` after its `fetch` settled. -/
def settleOrders (resp : Resp (List Order)) (c : Client) : Client × List Event :=
  match resp with
  | .ok (.ok data) => ({ c with orders := data }, [])
  | .ok (.error m) => (c, [.consoleError "Error fetching orders:" m])
  | .notOk _ => (c, [.consoleError "Error fetching orders:" "Failed to fetch orders"])
  | .netError m => (c, [.consoleError "Error fetching orders:" m])

/-- What a suspended call does when its awaited `fetch` settles: the new state,
the events emitted, and the next await point (`none` when the call returns).
The result is `none` when the settled `fetch` is not of the awaited kind. -/
def resume (t : Task) (s : Settled) (c : Client) :
    Option (Client × List Event × Option Task) :=
  match t, s with
  | .loadProducts, .products resp => some (settleProducts resp c, [], none)
  | .loadCart, .cart resp => some ((settleCart resp c).1, (settleCart resp c).2, none)
  | .loadOrders, .orders resp => some ((settleOrders resp c).1, (settleOrders resp c).2, none)
  | .addPost _, .unit (.netError m) => some (c, [.alert m], none)
  | .addPost _, .unit (.notOk (.error m)) => some (c, [.alert m], none)
  | .addPost _, .unit (.notOk (.ok detail)) => some (c, [.alert (detailMessage detail)], none)
  | .addPost _, .unit (.ok _) => some (c, [], some .addCart)
  | .addCart, .cart resp => some ((settleCart resp c).1, (settleCart resp c).2, some .addProducts)
  | .addProducts, .products resp => some (settleProducts resp c, [], none)
  | .updatePut _ _, .unit (.netError m) => some (c, [.alert m], none)
  | .updatePut _ _, .unit (.notOk (.error m)) => some (c, [.alert m], none)
  | .updatePut _ _, .unit (.notOk (.ok detail)) =>
      some (c, [.alert (detailMessage detail)], none)
  | .updatePut _ _, .unit (.ok _) => some (c, [], some .updateCart)
  | .updateCart, .cart resp => some ((settleCart resp c).1, (settleCart resp c).2, none)
  | .removeDelete _, .unit (.netError m) => some (c, [.alert m], none)
  | .removeDelete _, .unit (.notOk _) => some (c, [.alert "Failed to remove item"], none)
  | .removeDelete _, .unit (.ok _) => some (c, [], some .removeCart)
  | .removeCart, .cart resp => some ((settleCart resp c).1, (settleCart resp c).2, none)
  | .orderPost _, .order (.netError m) => some (c, [.alert m], none)
  | .orderPost _, .order (.notOk (.error m)) => some (c, [.alert m], none)
  | .orderPost _, .order (.notOk (.ok detail)) =>
      some (c, [.alert (detailMessage detail)], none)
  | .orderPost _, .order (.ok (.error m)) => some (c, [.alert m], none)
  | .orderPost _, .order (.ok (.ok order)) =>
      some (c, [.alert (orderCreatedMessage order)], some .orderClear)
  | .orderClear, .unit (.netError m) => some (c, [.alert m], none)
  | .orderClear, .unit _ => some (c, [], some .orderCart)
  | .orderCart, .cart resp =>
      some ((settleCart resp c).1, (settleCart resp c).2, some .orderProducts)
  | .orderProducts, .products resp =>
      some ({ settleProducts resp c with showCart := false }, [], none)
  | _, _ => none

/-- The component between two events: the state hooks, the suspended calls and
the events emitted so far. -/
structure App where
  client : Client
  pending : List Task
  trace : List Event

/-- The component after the mount effect (lines 19-23) called `fetchProducts()`
and `fetchCart()`. -/
def App.mounted (sessionId : String) : App :=
  { client := Client.init,
    pending := [.loadProducts, .loadCart],
    trace := [.request .getProducts, .request (.getCart sessionId)] }

/-- The main view is rendered: neither `if (loading)` nor `if (error)` returned
early (lines 151-152); the empty string is falsy. -/
def viewRendered (c : Client) : Bool :=
  !c.loading && (match c.error with
    | none => true
    | some m => m == "")

/-- The cart line of `item` is rendered with its buttons (lines 178-212). -/
def lineRendered (c : Client) (item : CartItem) : Bool :=
  viewRendered c && c.showCart && c.cart.length != 0 && c.cart.contains item &&
    (c.products.find? (fun p => p.id == item.product_id)).isSome

/-- Suspend a new call at its first await. -/
def App.start (sessionId : String) (s : App) (t : Task) : App :=
  { s with pending := s.pending ++ [t], trace := s.trace ++ [.request (t.request sessionId)] }

/-- The call `updateCartItem(productId, quantity)` up to its first await. -/
def App.startUpdate (sessionId : String) (s : App) (productId : ProductId) (quantity : Int) :
    App :=
  if quantity = 0 then s.start sessionId (.removeDelete productId)
  else s.start sessionId (.updatePut productId quantity)

/-- What can happen to the component. -/
inductive Input where
  /-- Click on "Add to Cart" of the card of product `productId` (lines 263-269). -/
  | clickAdd (productId : ProductId)
  /-- Click on "-" of a cart line (line 196). -/
  | clickMinus (item : CartItem)
  /-- Click on "+" of a cart line (line 198). -/
  | clickPlus (item : CartItem)
  /-- Click on "Remove" of a cart line (lines 199-204). -/
  | clickRemove (item : CartItem)
  /-- Click on "Create Order" (lines 216-218). -/
  | clickCreateOrder
  /-- Click on the Cart button (lines 159-164). -/
  | clickCart
  /-- Click on the Orders button (lines 165-174). -/
  | clickOrders
  /-- The `fetch` awaited by the pending task at position `i` settles. -/
  | settle (i : Nat) (s : Settled)

/-- One step of the component; `none` when the input is not possible in the
state (the control is not rendered or is disabled, no such pending task, or a
settled `fetch` of the wrong kind). -/
def step (sessionId : String) (s : App) : Input → Option App
  | .clickAdd productId =>
      if viewRendered s.client &&
          s.client.products.any (fun p => p.id == productId && p.stock != 0) then
        some (s.start sessionId (.addPost productId))
      else none
  | .clickMinus item =>
      if lineRendered s.client item then
        some (s.startUpdate sessionId item.product_id (item.quantity - 1))
      else none
  | .clickPlus item =>
      if lineRendered s.client item then
        some (s.startUpdate sessionId item.product_id (item.quantity + 1))
      else none
  | .clickRemove item =>
      if lineRendered s.client item then
        some (s.start sessionId (.removeDelete item.product_id))
      else none
  | .clickCreateOrder =>
      if viewRendered s.client && s.client.showCart && s.client.cart.length != 0 then
        some (s.start sessionId (.orderPost s.client.cart))
      else none
  | .clickCart =>
      if viewRendered s.client then
        some { s with client :=
          { s.client with showCart := !s.client.showCart, showOrders := false } }
      else none
  | .clickOrders =>
      if viewRendered s.client then
        let s' : App := { s with client :=
          { s.client with showOrders := !s.client.showOrders, showCart := false } }
        if !s.client.showOrders then some (s'.start sessionId .loadOrders) else some s'
      else none
  | .settle i settled =>
      match s.pending.get? i with
      | none => none
      | some t =>
          match resume t settled s.client with
          | none => none
          | some (c', events, next) =>
              some
                { client := c',
                  pending := s.pending.eraseIdx i ++ next.toList,
                  trace := s.trace ++ events ++
                    next.toList.map (fun t' => Event.request (t'.request sessionId)) }

/-- Run a sequence of inputs. -/
def run (sessionId : String) : App → List Input → Option App
  | s, [] => some s
  | s, i :: is =>
      match step sessionId s i with
      | none => none
      | some s' => run sessionId s' is

/-- The number of pending calls that belong to a mutating action. -/
def App.mutationsPending (s : App) : Nat := (s.pending.filter Task.isMutation).length

/-! ## A backend with an explicit cart -/

/-- Modelled from the spec: what a backend `srv` owes the session's cart
`serverCart` (the backend is not part of the component).  The cart read answers
the stored cart (section 6, `{items: sequence<CartItem>}`, a missing cart being
an empty one); reads and order creation leave the cart alone (section 3: the
cart is emptied explicitly after a successful order creation); a request that
fails has no effect on the cart (section 4.2: operations are side-effect-free
on failure). -/
structure KeepsCart {W : Type} (srv : Server W) (sessionId : String)
    (serverCart : W → List CartItem) : Prop where
  getCart_reads : ∀ w data, (srv (.getCart sessionId) w).1 = .ok (.ok data) →
    data.items.getD [] = serverCart w
  getCart_keeps : ∀ w, serverCart (srv (.getCart sessionId) w).2 = serverCart w
  getProducts_keeps : ∀ w, serverCart (srv .getProducts w).2 = serverCart w
  getOrders_keeps : ∀ w, serverCart (srv .getOrders w).2 = serverCart w
  postOrder_keeps : ∀ items w, serverCart (srv (.postOrder items) w).2 = serverCart w
  failed_keeps : ∀ r w, (srv r w).1.failed = true → serverCart (srv r w).2 = serverCart w

/-- Modelled from the spec: how the next request fares (section 5: connection
error and non-2xx status are the failure modes). -/
inductive Fate where
  | succeed
  | offline
  | reject (detail : String)
  deriving DecidableEq

/-- Modelled from the spec: the state of a backend serving one session
(sections 3 and 6): the catalogue, the session's cart, the stored orders, and
the fates of the coming requests (an exhausted script means success). -/
structure Backend where
  catalog : List Product
  cart : List CartItem
  orders : List Order
  script : List Fate

/-- Modelled from the spec: adding `quantity` of a product to a cart. -/
def Backend.addItem (cart : List CartItem) (productId : ProductId) (quantity : Int) :
    List CartItem :=
  if cart.any (fun item => item.product_id == productId) then
    cart.map (fun item =>
      if item.product_id = productId then { item with quantity := item.quantity + quantity }
      else item)
  else cart ++ [{ product_id := productId, quantity := quantity }]

/-- Modelled from the spec: setting the quantity of a product of a cart. -/
def Backend.setItem (cart : List CartItem) (productId : ProductId) (quantity : Int) :
    List CartItem :=
  cart.map (fun item =>
    if item.product_id = productId then { item with quantity := quantity } else item)

/-- Modelled from the spec: removing a product from a cart. -/
def Backend.removeItem (cart : List CartItem) (productId : ProductId) : List CartItem :=
  cart.filter (fun item => item.product_id != productId)

/-- Modelled from the spec: the order stored for the submitted cart items, with
the item snapshots and the total taken from the catalogue. -/
def Backend.makeOrder (w : Backend) (cart_items : List CartItem) : Order :=
  { id := "order-" ++ toString w.orders.length,
    created_at := "",
    status := "pending",
    items := cart_items.filterMap (fun item =>
      (w.catalog.find? (fun p => p.id == item.product_id)).map (fun p =>
        { product_name := p.name, quantity := item.quantity, price := p.price })),
    total := getCartTotal w.catalog cart_items }

/-- Modelled from the spec: the backend of section 6 for a single session.  The
head of the script decides whether the request fails; a failed request changes
nothing but the script. -/
def Backend.respond : Server Backend := fun r w =>
  match w.script with
  | .offline :: rest => (.netError "Failed to fetch", { w with script := rest })
  | .reject detail :: rest => (.notOk (.ok (some detail)), { w with script := rest })
  | script =>
      let w₁ : Backend := { w with script := script.tail }
      match r with
      | .getProducts => (.ok (.ok w₁.catalog), w₁)
      | .getCart _ => (.ok (.ok { items := some w₁.cart }), w₁)
      | .getOrders => (.ok (.ok w₁.orders), w₁)
      | .postItem _ productId quantity =>
          (.ok (.ok ()), { w₁ with cart := Backend.addItem w₁.cart productId quantity })
      | .putItem _ productId quantity =>
          (.ok (.ok ()), { w₁ with cart := Backend.setItem w₁.cart productId quantity })
      | .deleteItem _ productId =>
          (.ok (.ok ()), { w₁ with cart := Backend.removeItem w₁.cart productId })
      | .deleteCart _ => (.ok (.ok ()), { w₁ with cart := [] })
      | .postOrder cart_items =>
          (.ok (.ok (w₁.makeOrder cart_items)),
            { w₁ with orders := w₁.orders ++ [w₁.makeOrder cart_items] })

/-- A product for the examples: product A of the scenario of section 8. -/
def productA : Product :=
  { id := 1, name := "A", description := "", price := 999 / 100, stock := 1, image_url := "" }

/-- A backend whose every request fails with a non-2xx status and no body. -/
def refusing : Server Unit := fun _ w => (.notOk (.ok none), w)

/-- A backend whose clear-cart request fails in transport; everything else
succeeds with empty data. -/
def clearFails : Server Unit := fun r w =>
  match r with
  | .getProducts => (.ok (.ok []), w)
  | .getCart _ => (.ok (.ok { items := none }), w)
  | .getOrders => (.ok (.ok []), w)
  | .postItem _ _ _ => (.ok (.ok ()), w)
  | .putItem _ _ _ => (.ok (.ok ()), w)
  | .deleteItem _ _ => (.ok (.ok ()), w)
  | .deleteCart _ => (.netError "Failed to fetch", w)
  | .postOrder _ =>
      (.ok (.ok { id := "o1", created_at := "", status := "pending", items := [], total := 0 }),
        w)

/-- A backend that answers the order POST with a 2xx status and a body that is
not JSON; every other request fails with a non-2xx status. -/
def orderUnreadable : Server Unit := fun r w =>
  match r with
  | .postOrder _ => (.ok (.error "Unexpected end of JSON input"), w)
  | _ => (.notOk (.ok none), w)

/-- The backend of the scenario of section 8: product A in the catalogue, an
empty cart, and a script that lets the first add (POST, cart read, products
read) through and rejects the next request. -/
def scenarioBackend : Backend :=
  { catalog := [productA], cart := [], orders := [],
    script := [.succeed, .succeed, .succeed, .reject "Insufficient stock"] }

/-- The client of the scenario, loaded and idle. -/
def scenarioClient : Client :=
  { Client.init with products := [productA], loading := false }

/-- A client that displays a one-item cart. -/
def oneItemClient : Client :=
  { Client.init with cart := [⟨1, 1⟩], loading := false, showCart := true }

/-- A backend holding a one-item cart whose second request, the clear-cart
DELETE of a checkout, is answered with a non-2xx status. -/
def clearRejected : Backend :=
  { catalog := [productA], cart := [⟨1, 1⟩], orders := [],
    script := [.succeed, .reject "Cart not found"] }

/-! ## The component driven by a backend -/

/-- The input is a click, not the settling of a `fetch`. -/
def Input.isClick : Input → Bool
  | .settle _ _ => false
  | _ => true

/-- The suspended call is waiting for a read of the cart: the `fetchCart()` of
the mount effect or of one of the four actions. -/
def Task.awaitsCartRead : Task → Bool
  | .loadCart => true
  | .addCart => true
  | .updateCart => true
  | .removeCart => true
  | .orderCart => true
  | _ => false

/-- What happens next to the component and the backend together: the user
clicks, or the awaited request of the pending task at position `k` reaches the
backend and its answer settles the `fetch`. -/
inductive Move where
  | click (i : Input)
  | deliver (k : Nat)

/-- One move of the component together with the backend; a request is answered
by the backend at the moment its `fetch` settles.  The result is `none` when
the move is not possible. -/
def serve {W : Type} (srv : Server W) (sessionId : String) (s : App) (w : W) :
    Move → Option (App × W)
  | .click i =>
      if i.isClick then (step sessionId s i).map (fun s' => (s', w)) else none
  | .deliver k =>
      match s.pending.get? k with
      | none => none
      | some t =>
          (step sessionId s
            (.settle k (Settled.of (t.request sessionId) (srv (t.request sessionId) w).1))).map
            (fun s' => (s', (srv (t.request sessionId) w).2))

/-- A sequence of moves. -/
def serveAll {W : Type} (srv : Server W) (sessionId : String) :
    App → W → List Move → Option (App × W)
  | s, w, [] => some (s, w)
  | s, w, m :: ms =>
      match serve srv sessionId s w m with
      | none => none
      | some (s', w') => serveAll srv sessionId s' w' ms

/-- A backend with product A in the catalogue, an empty cart, and no failure to
come. -/
def calmBackend : Backend :=
  { catalog := [productA], cart := [], orders := [], script := [] }

/-- The component of the scenario, loaded and idle, with nothing pending. -/
def idleApp : App := { client := scenarioClient, pending := [], trace := [] }

/-- Two overlapping calls of `addToCart`: both clicks, then the POST and the
cart read of the first call, then the POST of the second call, then the products
read of the first call, which returns. -/
def overlappingAdds : List Move :=
  [.click (.clickAdd 1), .click (.clickAdd 1), .deliver 0, .deliver 1, .deliver 0, .deliver 0]

/-- One call of `addToCart` from click to return. -/
def singleAdd : List Move :=
  [.click (.clickAdd 1), .deliver 0, .deliver 0, .deliver 0]

/-- The trace records a failed cart read: `fetchCart` logged its error to the
console (line 45). -/
def cartReadFailed (trace : List Event) : Bool :=
  trace.any (fun e =>
    match e with
    | .consoleError label _ => label == "Error fetching cart:"
    | _ => false)

/-- A backend with an empty cart whose second request fails in transport. -/
def flakyBackend : Backend :=
  { catalog := [productA], cart := [], orders := [], script := [.succeed, .offline] }

/-- The displayed cart is accounted for: it equals the server's cart, or a cart
read has failed, or some pending call is still waiting for its cart read. -/
def CartAccounted {W : Type} (serverCart : W → List CartItem) (s : App) (w : W) : Prop :=
  s.client.cart = serverCart w ∨ cartReadFailed s.trace = true ∨
    s.pending.any Task.awaitsCartRead = true

/-- The component after `singleAdd` from `idleApp` against `calmBackend`. -/
def singleAddEnd : App :=
  { client := { scenarioClient with cart := [⟨1, 1⟩] },
    pending := [],
    trace := [.request (.postItem "s" 1 1), .request (.getCart "s"), .request .getProducts] }

/-- The backend after `singleAdd` from `idleApp` against `calmBackend`. -/
def singleAddBackend : Backend := { calmBackend with cart := [⟨1, 1⟩] }

/-- Run one suspended call against the backend until it returns, nothing else
happening in between; `fuel` bounds the number of awaited requests. -/
def complete {W : Type} (srv : Server W) (sessionId : String) :
    Nat → Task → Client → W → Option (Outcome W)
  | 0, _, _, _ => none
  | fuel + 1, t, c, w =>
      match resume t (Settled.of (t.request sessionId) (srv (t.request sessionId) w).1) c with
      | none => none
      | some (c', events, none) =>
          some ⟨c', (srv (t.request sessionId) w).2, .request (t.request sessionId) :: events⟩
      | some (c', events, some t') =>
          (complete srv sessionId fuel t' c' (srv (t.request sessionId) w).2).map
            (fun o => { o with trace := .request (t.request sessionId) :: events ++ o.trace })

/-- A storage in which the empty string is stored under the key `sessionId`. -/
def emptyStringStored : Storage := Storage.setItem (fun _ => none) "sessionId" ""

/-- A storage in which `session-7` is stored under the key `sessionId`. -/
def sessionStored : Storage := Storage.setItem (fun _ => none) "sessionId" "session-7"

/-! ## The cart total as the specification words it -/

/-- The price of the first product of the snapshot whose id is `id`
(`0` when there is none). -/
def firstPriceOf : List Product → ProductId → ℚ
  | [], _ => 0
  | p :: ps, id => if p.id = id then p.price else firstPriceOf ps id

/-- Some product of the snapshot has the id `id`. -/
def presentIn (products : List Product) (id : ProductId) : Bool :=
  products.any (fun p => decide (p.id = id))

/-- The total in the words of the specification: the sum, over the items of
the cart present in the snapshot, of price times quantity. -/
def specCartTotal (products : List Product) (cart : List CartItem) : ℚ :=
  ((cart.filter (fun item => presentIn products item.product_id)).map
    (fun item => firstPriceOf products item.product_id * item.quantity)).sum

/-! ## Proofs: the cart total -/

/-- What one step of the `reduce` callback adds for an item. -/
theorem find_contribution (products : List Product) (id : ProductId) (q : ℚ) :
    (match products.find? (fun p => p.id == id) with
      | some p => p.price * q
      | none => 0)
      = if presentIn products id then firstPriceOf products id * q else 0 := by
  induction products with
  | nil => simp [presentIn]
  | cons p ps ih =>
    by_cases h : p.id = id
    · simp [List.find?, presentIn, firstPriceOf, h]
    · have hb : (p.id == id) = false := by simpa using h
      simp only [List.find?, hb, firstPriceOf, h, if_false]
      rw [ih]
      simp [presentIn, h]

/-- The fold of `getCartTotal` from an arbitrary starting total. -/
theorem foldl_total (products : List Product) (cart : List CartItem) (acc : ℚ) :
    cart.foldl
      (fun total item =>
        let product := products.find? (fun p => p.id == item.product_id)
        total + (match product with
          | some p => p.price * item.quantity
          | none => 0))
      acc
      = acc + specCartTotal products cart := by
  induction cart generalizing acc with
  | nil => simp [specCartTotal]
  | cons item rest ih =>
    simp only [List.foldl_cons]
    rw [ih, find_contribution products item.product_id item.quantity]
    by_cases h : presentIn products item.product_id = true
    · simp [specCartTotal, List.filter_cons, h, add_assoc]
    · simp [specCartTotal, List.filter_cons, h]

/-- C1: for every product snapshot and every cart, the value `getCartTotal`
computes before formatting equals the sum, over the cart items whose product id
occurs in the snapshot, of the price of the first product with that id times the
item's quantity; items without a matching product are left out of the sum, that
is, contribute 0. -/
theorem getCartTotal_eq_spec (products : List Product) (cart : List CartItem) :
    getCartTotal products cart = specCartTotal products cart := by
  unfold getCartTotal
  rw [foldl_total]
  simp

/-! ## Proofs: traces of the fetch helpers -/

theorem requestsOf_append (xs ys : List Event) :
    requestsOf (xs ++ ys) = requestsOf xs ++ requestsOf ys := by
  induction xs with
  | nil => rfl
  | cons e es ih => cases e <;> simp [requestsOf, ih]

theorem alertsOf_append (xs ys : List Event) :
    alertsOf (xs ++ ys) = alertsOf xs ++ alertsOf ys := by
  induction xs with
  | nil => rfl
  | cons e es ih => cases e <;> simp [alertsOf, ih]

theorem andThen_trace {W : Type} (o : Outcome W) (f : Client → W → Outcome W) :
    (o.andThen f).trace = o.trace ++ (f o.client o.server).trace := rfl

theorem andThen_client {W : Type} (o : Outcome W) (f : Client → W → Outcome W) :
    (o.andThen f).client = (f o.client o.server).client := rfl

theorem andThen_server {W : Type} (o : Outcome W) (f : Client → W → Outcome W) :
    (o.andThen f).server = (f o.client o.server).server := rfl

theorem fetchCart_requests {W : Type} (srv : Server W) (sessionId : String) (c : Client)
    (w : W) : requestsOf (fetchCart srv sessionId c w).trace = [.getCart sessionId] := by
  rcases h : srv (.getCart sessionId) w with ⟨resp, w'⟩
  rcases resp with m | b | (m | d) <;> simp [fetchCart, h, requestsOf]

theorem fetchCart_alerts {W : Type} (srv : Server W) (sessionId : String) (c : Client)
    (w : W) : alertsOf (fetchCart srv sessionId c w).trace = [] := by
  rcases h : srv (.getCart sessionId) w with ⟨resp, w'⟩
  rcases resp with m | b | (m | d) <;> simp [fetchCart, h, alertsOf]

theorem fetchCart_server {W : Type} (srv : Server W) (sessionId : String) (c : Client)
    (w : W) : (fetchCart srv sessionId c w).server = (srv (.getCart sessionId) w).2 := by
  rcases h : srv (.getCart sessionId) w with ⟨resp, w'⟩
  rcases resp with m | b | (m | d) <;> simp [fetchCart, h]

theorem fetchProducts_requests {W : Type} (srv : Server W) (c : Client) (w : W) :
    requestsOf (fetchProducts srv c w).trace = [.getProducts] := by
  rcases h : srv .getProducts w with ⟨resp, w'⟩
  rcases resp with m | b | (m | d) <;> simp [fetchProducts, h, requestsOf]

theorem fetchProducts_alerts {W : Type} (srv : Server W) (c : Client) (w : W) :
    alertsOf (fetchProducts srv c w).trace = [] := by
  rcases h : srv .getProducts w with ⟨resp, w'⟩
  rcases resp with m | b | (m | d) <;> simp [fetchProducts, h, alertsOf]

theorem fetchProducts_server {W : Type} (srv : Server W) (c : Client) (w : W) :
    (fetchProducts srv c w).server = (srv .getProducts w).2 := by
  rcases h : srv .getProducts w with ⟨resp, w'⟩
  rcases resp with m | b | (m | d) <;> simp [fetchProducts, h]

theorem fetchProducts_cart {W : Type} (srv : Server W) (c : Client) (w : W) :
    (fetchProducts srv c w).client.cart = c.cart := by
  rcases h : srv .getProducts w with ⟨resp, w'⟩
  rcases resp with m | b | (m | d) <;> simp [fetchProducts, h]

/-! ## Proofs: the step function agrees with the actions -/

/-- The calls of the fetch helpers complete as the helpers themselves. -/
theorem complete_fetch {W : Type} (srv : Server W) (sessionId : String) (c : Client)
    (w : W) :
    complete srv sessionId 1 .loadProducts c w = some (fetchProducts srv c w) ∧
    complete srv sessionId 1 .loadCart c w = some (fetchCart srv sessionId c w) ∧
    complete srv sessionId 1 .loadOrders c w = some (fetchOrders srv c w) := by
  refine ⟨?_, ?_, ?_⟩
  · rcases h : srv .getProducts w with ⟨resp, w₁⟩
    rcases resp with m | b | (m | d) <;>
      simp [complete, Task.request, Settled.of, resume, settleProducts, fetchProducts, h]
  · rcases h : srv (.getCart sessionId) w with ⟨resp, w₁⟩
    rcases resp with m | b | (m | d) <;>
      simp [complete, Task.request, Settled.of, resume, settleCart, fetchCart, h]
  · rcases h : srv .getOrders w with ⟨resp, w₁⟩
    rcases resp with m | b | (m | d) <;>
      simp [complete, Task.request, Settled.of, resume, settleOrders, fetchOrders, h]

/-- A call of `addToCart` suspended at its POST completes as `addToCart`. -/
theorem complete_addToCart {W : Type} (srv : Server W) (sessionId : String)
    (productId : ProductId) (c : Client) (w : W) :
    complete srv sessionId 3 (.addPost productId) c w
      = some (addToCart srv sessionId productId c w) := by
  rcases h : srv (.postItem sessionId productId 1) w with ⟨resp, w₁⟩
  rcases resp with m | (m | d) | b
  · simp [complete, Task.request, Settled.of, resume, addToCart, h]
  · simp [complete, Task.request, Settled.of, resume, addToCart, h]
  · simp [complete, Task.request, Settled.of, resume, addToCart, h]
  · rcases h2 : srv (.getCart sessionId) w₁ with ⟨resp2, w₂⟩
    rcases h3 : srv .getProducts w₂ with ⟨resp3, w₃⟩
    rcases resp2 with m | b2 | (m | d) <;> rcases resp3 with m' | b3 | (m' | d') <;>
      simp [complete, Task.request, Settled.of, resume, addToCart, h, h2, h3, settleCart,
        settleProducts, fetchCart, fetchProducts, Outcome.andThen]

/-- A call of `removeFromCart` suspended at its DELETE completes as
`removeFromCart`. -/
theorem complete_removeFromCart {W : Type} (srv : Server W) (sessionId : String)
    (productId : ProductId) (c : Client) (w : W) :
    complete srv sessionId 2 (.removeDelete productId) c w
      = some (removeFromCart srv sessionId productId c w) := by
  rcases h : srv (.deleteItem sessionId productId) w with ⟨resp, w₁⟩
  rcases resp with m | b | b
  · simp [complete, Task.request, Settled.of, resume, removeFromCart, h]
  · simp [complete, Task.request, Settled.of, resume, removeFromCart, h]
  · rcases h2 : srv (.getCart sessionId) w₁ with ⟨resp2, w₂⟩
    rcases resp2 with m | b2 | (m | d) <;>
      simp [complete, Task.request, Settled.of, resume, removeFromCart, h, h2, settleCart,
        fetchCart, Outcome.andThen]

/-- A call of `updateCartItem` with a non-zero quantity suspended at its PUT
completes as `updateCartItem`. -/
theorem complete_updateCartItem {W : Type} (srv : Server W) (sessionId : String)
    (productId : ProductId) (quantity : Int) (hq : quantity ≠ 0) (c : Client) (w : W) :
    complete srv sessionId 2 (.updatePut productId quantity) c w
      = some (updateCartItem srv sessionId productId quantity c w) := by
  rcases h : srv (.putItem sessionId productId quantity) w with ⟨resp, w₁⟩
  rcases resp with m | (m | d) | b
  · simp [complete, Task.request, Settled.of, resume, updateCartItem, hq, h]
  · simp [complete, Task.request, Settled.of, resume, updateCartItem, hq, h]
  · simp [complete, Task.request, Settled.of, resume, updateCartItem, hq, h]
  · rcases h2 : srv (.getCart sessionId) w₁ with ⟨resp2, w₂⟩
    rcases resp2 with m | b2 | (m | d) <;>
      simp [complete, Task.request, Settled.of, resume, updateCartItem, hq, h, h2, settleCart,
        fetchCart, Outcome.andThen]

/-- A call of `createOrder` with a non-empty cart suspended at its order POST
completes as `createOrder`. -/
theorem complete_createOrder {W : Type} (srv : Server W) (sessionId : String)
    (c : Client) (w : W) (hc : c.cart ≠ []) :
    complete srv sessionId 4 (.orderPost c.cart) c w
      = some (createOrder srv sessionId c w) := by
  have hlen : ¬ c.cart.length = 0 := by simpa using hc
  rcases h : srv (.postOrder c.cart) w with ⟨resp, w₁⟩
  rcases resp with m | (m | d) | (m | order)
  · simp [complete, Task.request, Settled.of, resume, createOrder, hlen, h]
  · simp [complete, Task.request, Settled.of, resume, createOrder, hlen, h]
  · simp [complete, Task.request, Settled.of, resume, createOrder, hlen, h]
  · simp [complete, Task.request, Settled.of, resume, createOrder, hlen, h]
  · rcases h1 : srv (.deleteCart sessionId) w₁ with ⟨resp1, w₂⟩
    rcases resp1 with m | b | b
    · simp [complete, Task.request, Settled.of, resume, createOrder, hlen, h, h1]
    all_goals
      rcases h2 : srv (.getCart sessionId) w₂ with ⟨resp2, w₃⟩
      rcases h3 : srv .getProducts w₃ with ⟨resp3, w₄⟩
      rcases resp2 with m | b2 | (m | d) <;> rcases resp3 with m' | b3 | (m' | d') <;>
        simp [complete, Task.request, Settled.of, resume, createOrder, hlen, h, h1, h2, h3,
          settleCart, settleProducts, fetchCart, fetchProducts, Outcome.andThen]

/-! ## Proofs: quantity zero is a removal -/

/-- C3: for every product id, client state and backend, `updateCartItem(id, 0)`
has the same outcome as `removeFromCart(id)` (same client state, same backend
state, same requests and alerts in the same order), and the requests it issues
are the DELETE of the item followed, exactly when that DELETE succeeded, by one
read of the cart; no PUT is issued. -/
theorem updateCartItem_zero (W : Type) (srv : Server W) (sessionId : String)
    (productId : ProductId) (c : Client) (w : W) :
    updateCartItem srv sessionId productId 0 c w = removeFromCart srv sessionId productId c w ∧
    requestsOf (updateCartItem srv sessionId productId 0 c w).trace =
      (if (srv (.deleteItem sessionId productId) w).1.failed then
        [Request.deleteItem sessionId productId]
      else [Request.deleteItem sessionId productId, Request.getCart sessionId]) ∧
    (∀ q, Request.putItem sessionId productId q ∉
      requestsOf (updateCartItem srv sessionId productId 0 c w).trace) := by
  have h0 : updateCartItem srv sessionId productId 0 c w
      = removeFromCart srv sessionId productId c w := by
    simp [updateCartItem]
  have hreq : requestsOf (removeFromCart srv sessionId productId c w).trace =
      (if (srv (.deleteItem sessionId productId) w).1.failed then
        [Request.deleteItem sessionId productId]
      else [Request.deleteItem sessionId productId, Request.getCart sessionId]) := by
    rcases h : srv (.deleteItem sessionId productId) w with ⟨resp, w'⟩
    cases resp with
    | netError m => simp [removeFromCart, h, requestsOf, Resp.failed]
    | notOk b => simp [removeFromCart, h, requestsOf, Resp.failed]
    | ok b =>
      rcases h2 : srv (.getCart sessionId) w' with ⟨resp2, w''⟩
      rcases resp2 with m | b2 | (m | d) <;>
        simp [removeFromCart, h, Outcome.andThen, fetchCart, h2, requestsOf, Resp.failed]
  refine ⟨h0, ?_, ?_⟩
  · rw [h0, hreq]
  · intro q
    rw [h0, hreq]
    split <;> simp

/-! ## Proofs: the empty-cart guard of checkout -/

/-- C4: when the local cart snapshot is empty, `createOrder` issues no request,
shows the alert "Cart is empty" and leaves the client state and the backend as
they were; and whenever `createOrder` issues a request (the order creation in
particular), the local cart snapshot is non-empty. -/
theorem createOrder_empty_guard (W : Type) (srv : Server W) (sessionId : String)
    (c : Client) (w : W) :
    (c.cart = [] → createOrder srv sessionId c w = ⟨c, w, [.alert "Cart is empty"]⟩) ∧
    (∀ r, Event.request r ∈ (createOrder srv sessionId c w).trace → c.cart ≠ []) := by
  constructor
  · intro h
    simp [createOrder, h]
  · intro r hr hc
    simp [createOrder, hc] at hr

/-- An instance of C4: an empty cart against a backend that refuses every
request, and a one-item cart whose order POST is issued. -/
theorem createOrder_empty_guard_witness :
    createOrder refusing "s" Client.init () = ⟨Client.init, (), [.alert "Cart is empty"]⟩ ∧
    ({ Client.init with cart := [⟨1, 1⟩] } : Client).cart ≠ [] :=
  ⟨(createOrder_empty_guard Unit refusing "s" Client.init ()).1 rfl,
   (createOrder_empty_guard Unit refusing "s" { Client.init with cart := [⟨1, 1⟩] } ()).2
     (.postOrder [⟨1, 1⟩]) (by simp [createOrder, refusing, Client.init])⟩

/-! ## Proofs: a failed mutation changes nothing -/

/-- C5: when the mutating request of an action (the POST of `addToCart`, the PUT
or DELETE of `updateCartItem`, the DELETE of `removeFromCart`, the order POST of
`createOrder`) fails by transport error or non-2xx status, the client state
after the action equals the state before it, the backend is where that one
request left it, and the action did exactly two things: that request and one
alert; so no refetch is issued. -/
theorem failed_mutation_no_change (W : Type) (srv : Server W) (sessionId : String)
    (a : Action) (c : Client) (w : W) (r : Request)
    (hr : mutatingRequest sessionId c a = some r)
    (hf : (srv r w).1.failed = true) :
    (perform srv sessionId a c w).client = c ∧
    (perform srv sessionId a c w).server = (srv r w).2 ∧
    ∃ m, (perform srv sessionId a c w).trace = [.request r, .alert m] := by
  cases a with
  | addToCart productId =>
    simp only [mutatingRequest, Option.some.injEq] at hr
    subst hr
    rcases h : srv (.postItem sessionId productId 1) w with ⟨resp, w'⟩
    rw [h] at hf
    rcases resp with m | (m | d) | b <;> simp [Resp.failed] at hf <;>
      simp [perform, addToCart, h]
  | updateCartItem productId quantity =>
    by_cases hq : quantity = 0
    · simp only [mutatingRequest, hq, if_true, Option.some.injEq] at hr
      subst hr
      rcases h : srv (.deleteItem sessionId productId) w with ⟨resp, w'⟩
      rw [h] at hf
      rcases resp with m | b | b <;> simp [Resp.failed] at hf <;>
        simp [perform, updateCartItem, hq, removeFromCart, h]
    · simp only [mutatingRequest, hq, if_false, Option.some.injEq] at hr
      subst hr
      rcases h : srv (.putItem sessionId productId quantity) w with ⟨resp, w'⟩
      rw [h] at hf
      rcases resp with m | (m | d) | b <;> simp [Resp.failed] at hf <;>
        simp [perform, updateCartItem, hq, h]
  | removeFromCart productId =>
    simp only [mutatingRequest, Option.some.injEq] at hr
    subst hr
    rcases h : srv (.deleteItem sessionId productId) w with ⟨resp, w'⟩
    rw [h] at hf
    rcases resp with m | b | b <;> simp [Resp.failed] at hf <;>
      simp [perform, removeFromCart, h]
  | createOrder =>
    by_cases hc : c.cart.length = 0
    · simp [mutatingRequest, hc] at hr
    · simp only [mutatingRequest, hc, if_false, Option.some.injEq] at hr
      subst hr
      rcases h : srv (.postOrder c.cart) w with ⟨resp, w'⟩
      rw [h] at hf
      rcases resp with m | (m | d) | b <;> simp [Resp.failed] at hf <;>
        simp [perform, createOrder, hc, h]

/-- An instance of C5: a checkout of a one-item cart whose order POST is
answered with a non-2xx status. -/
theorem failed_mutation_no_change_witness :
    (perform refusing "s" .createOrder { Client.init with cart := [⟨1, 1⟩] } ()).client
        = { Client.init with cart := [⟨1, 1⟩] } ∧
    (perform refusing "s" .createOrder { Client.init with cart := [⟨1, 1⟩] } ()).server
        = (refusing (.postOrder [⟨1, 1⟩]) ()).2 ∧
    ∃ m, (perform refusing "s" .createOrder { Client.init with cart := [⟨1, 1⟩] } ()).trace
        = [.request (.postOrder [⟨1, 1⟩]), .alert m] :=
  failed_mutation_no_change Unit refusing "s" .createOrder
    { Client.init with cart := [⟨1, 1⟩] } () (.postOrder [⟨1, 1⟩]) rfl rfl

/-! ## Proofs: a rejected add shows the server's message -/

/-- C10: when the backend rejects the POST of `addToCart` with a failure body
`{detail: d}`, the action does exactly two things, the POST and an alert whose
text is `d` itself, and the client state (the local cart in particular) is the
one before the action. -/
theorem addToCart_rejected (W : Type) (srv : Server W) (sessionId : String)
    (productId : ProductId) (c : Client) (w : W) (d : String)
    (h : (srv (.postItem sessionId productId 1) w).1 = .notOk (.ok (some d))) :
    (addToCart srv sessionId productId c w).trace
      = [.request (.postItem sessionId productId 1), .alert d] ∧
    alertsOf (addToCart srv sessionId productId c w).trace = [d] ∧
    (addToCart srv sessionId productId c w).client = c ∧
    (addToCart srv sessionId productId c w).client.cart = c.cart := by
  rcases h' : srv (.postItem sessionId productId 1) w with ⟨resp, w'⟩
  rw [h'] at h
  simp only at h
  subst h
  simp [addToCart, h', detailMessage, alertsOf]

/-- An instance of C10, the scenario of section 8: product A is added once, the
cart then holds A with quantity 1; the second add is rejected with the message
"Insufficient stock", which is shown as it is, and the cart still holds A with
quantity 1. -/
theorem addToCart_rejected_witness :
    (addToCart Backend.respond "s" 1 scenarioClient scenarioBackend).client.cart = [⟨1, 1⟩] ∧
    alertsOf (addToCart Backend.respond "s" 1
      (addToCart Backend.respond "s" 1 scenarioClient scenarioBackend).client
      (addToCart Backend.respond "s" 1 scenarioClient scenarioBackend).server).trace
        = ["Insufficient stock"] ∧
    (addToCart Backend.respond "s" 1
      (addToCart Backend.respond "s" 1 scenarioClient scenarioBackend).client
      (addToCart Backend.respond "s" 1 scenarioClient scenarioBackend).server).client.cart
        = [⟨1, 1⟩] :=
  ⟨rfl,
   (addToCart_rejected Backend _ "s" 1 _ _ "Insufficient stock" rfl).2.1,
   ((addToCart_rejected Backend Backend.respond "s" 1
      (addToCart Backend.respond "s" 1 scenarioClient scenarioBackend).client
      (addToCart Backend.respond "s" 1 scenarioClient scenarioBackend).server
      "Insufficient stock" rfl).2.2.2).trans rfl⟩

/-! ## Proofs: the cart read of a session without a cart -/

/-- C9, the claim fails: a client that displays a one-item cart reads the cart
from a backend that answers with a non-2xx status (such as not found); the local
cart is still the one-item cart, not the empty list. -/
theorem fetchCart_notFound_keeps_cart :
    (refusing (.getCart "s") ()).1.failed = true ∧
    (fetchCart refusing "s" oneItemClient ()).client.cart = [⟨1, 1⟩] ∧
    (fetchCart refusing "s" oneItemClient ()).client.cart ≠ [] := by
  refine ⟨rfl, rfl, ?_⟩
  simp [fetchCart, refusing, oneItemClient]

/-- C9 as amended: when the cart read succeeds with a body without an items
collection, `fetchCart` makes the local cart the empty list and changes nothing
else; when the cart read fails (a not-found or other non-2xx status, or a
transport error), `fetchCart` leaves the client state, the local cart included,
as it was; in every case no alert is shown and the error state is not touched. -/
theorem fetchCart_missing_cart (W : Type) (srv : Server W) (sessionId : String)
    (c : Client) (w : W) :
    ((srv (.getCart sessionId) w).1 = .ok (.ok { items := none }) →
      (fetchCart srv sessionId c w).client = { c with cart := [] }) ∧
    ((srv (.getCart sessionId) w).1.failed = true →
      (fetchCart srv sessionId c w).client = c) ∧
    alertsOf (fetchCart srv sessionId c w).trace = [] ∧
    (fetchCart srv sessionId c w).client.error = c.error := by
  rcases h : srv (.getCart sessionId) w with ⟨resp, w'⟩
  rcases resp with m | b | (m | d) <;> simp [fetchCart, h, alertsOf, Resp.failed]
  intro hd
  subst hd
  rfl

/-- An instance of the amended C9: a backend that answers the cart read with an
empty object, and one that answers it with a non-2xx status. -/
theorem fetchCart_missing_cart_witness :
    (fetchCart clearFails "s" oneItemClient ()).client = { oneItemClient with cart := [] } ∧
    (fetchCart refusing "s" oneItemClient ()).client = oneItemClient :=
  ⟨(fetchCart_missing_cart Unit clearFails "s" oneItemClient ()).1 rfl,
   (fetchCart_missing_cart Unit refusing "s" oneItemClient ()).2.1 rfl⟩

/-! ## Proofs: what follows a created order -/

/-- C7, the claim fails, in two ways.  A checkout of a one-item cart whose order
POST succeeds and whose clear-cart DELETE fails in transport issues those two
requests only: neither the cart nor the products are refetched.  A checkout
whose order POST is answered with a 2xx status and a body that cannot be read
issues the order POST only: the clear-cart request is never issued. -/
theorem createOrder_clear_transport_failure :
    (clearFails (.postOrder oneItemClient.cart) ()).1.failed = false ∧
    (clearFails (.deleteCart "s") ()).1.failed = true ∧
    requestsOf (createOrder clearFails "s" oneItemClient ()).trace
      = [.postOrder [⟨1, 1⟩], .deleteCart "s"] ∧
    alertsOf (createOrder clearFails "s" oneItemClient ()).trace
      = ["Order created successfully! Order ID: o1", "Failed to fetch"] ∧
    (orderUnreadable (.postOrder oneItemClient.cart) ()).1.failed = false ∧
    requestsOf (createOrder orderUnreadable "s" oneItemClient ()).trace
      = [.postOrder [⟨1, 1⟩]] ∧
    alertsOf (createOrder orderUnreadable "s" oneItemClient ()).trace
      = ["Unexpected end of JSON input"] := by
  refine ⟨rfl, rfl, ?_, ?_, rfl, ?_, ?_⟩ <;>
    simp [createOrder, clearFails, orderUnreadable, oneItemClient, Client.init, requestsOf,
      alertsOf, orderCreatedMessage]

/-- C7 as amended: for a checkout with a non-empty local cart whose order POST
is answered with a 2xx status.  When the order body cannot be read, the client
does exactly two things, the order POST and an alert with the error's message,
and its state is unchanged: no clear-cart request, no refetch.  When the order
body is read, the client shows the order-created alert and issues the clear-cart
DELETE; if that DELETE fails in transport, the client shows an alert with the
transport error's message and does nothing more: nothing is refetched and its
state is unchanged; if that DELETE is answered with any status (2xx or not), the
requests issued are the order POST, the clear-cart DELETE once, one read of the
cart and then one read of the products, and the order-created alert is the only
alert.  In every case the clear-cart request is not repeated and no second
order request is issued. -/
theorem createOrder_after_success (W : Type) (srv : Server W) (sessionId : String)
    (c : Client) (w : W) (hc : c.cart ≠ []) :
    (∀ m, (srv (.postOrder c.cart) w).1 = .ok (.error m) →
      (createOrder srv sessionId c w).trace = [.request (.postOrder c.cart), .alert m] ∧
      (createOrder srv sessionId c w).client = c) ∧
    (∀ order m, (srv (.postOrder c.cart) w).1 = .ok (.ok order) →
      (srv (.deleteCart sessionId) (srv (.postOrder c.cart) w).2).1 = .netError m →
      (createOrder srv sessionId c w).trace =
        [.request (.postOrder c.cart), .alert (orderCreatedMessage order),
          .request (.deleteCart sessionId), .alert m] ∧
      (createOrder srv sessionId c w).client = c) ∧
    (∀ order, (srv (.postOrder c.cart) w).1 = .ok (.ok order) →
      (srv (.deleteCart sessionId) (srv (.postOrder c.cart) w).2).1.answered = true →
      requestsOf (createOrder srv sessionId c w).trace =
        [.postOrder c.cart, .deleteCart sessionId, .getCart sessionId, .getProducts] ∧
      alertsOf (createOrder srv sessionId c w).trace = [orderCreatedMessage order]) := by
  have hlen : ¬ c.cart.length = 0 := by simpa using hc
  rcases hp : srv (.postOrder c.cart) w with ⟨resp, w₁⟩
  refine ⟨?_, ?_, ?_⟩
  · intro m hm
    simp only at hm
    subst hm
    simp [createOrder, hlen, hp]
  · intro order m ho hm
    simp only at ho hm
    subst ho
    rcases hd : srv (.deleteCart sessionId) w₁ with ⟨resp2, w₂⟩
    rw [hd] at hm
    simp only at hm
    subst hm
    simp [createOrder, hlen, hp, hd]
  · intro order ho ha
    simp only at ho ha
    subst ho
    rcases hd : srv (.deleteCart sessionId) w₁ with ⟨resp2, w₂⟩
    rw [hd] at ha
    rcases resp2 with m | b | b
    · simp [Resp.answered] at ha
    all_goals
      simp [createOrder, hlen, hp, hd, andThen_trace, andThen_client, andThen_server,
        requestsOf_append, alertsOf_append, fetchCart_requests, fetchProducts_requests,
        fetchCart_alerts, fetchProducts_alerts, requestsOf, alertsOf]

/-- An instance of the amended C7: the checkout of a one-item cart whose
clear-cart DELETE is answered with a non-2xx status; the cart and the products
are refetched all the same and the order-created alert is the only alert. -/
theorem createOrder_after_success_witness :
    oneItemClient.cart ≠ [] ∧
    requestsOf (createOrder Backend.respond "s" oneItemClient clearRejected).trace =
      [.postOrder [⟨1, 1⟩], .deleteCart "s", .getCart "s", .getProducts] ∧
    alertsOf (createOrder Backend.respond "s" oneItemClient clearRejected).trace =
      ["Order created successfully! Order ID: order-0"] :=
  ⟨by decide,
   ((createOrder_after_success Backend Backend.respond "s" oneItemClient clearRejected
      (by decide)).2.2 (clearRejected.makeOrder oneItemClient.cart) rfl rfl).1.trans rfl,
   ((createOrder_after_success Backend Backend.respond "s" oneItemClient clearRejected
      (by decide)).2.2 (clearRejected.makeOrder oneItemClient.cart) rfl rfl).2.trans
      (by decide)⟩

/-! ## Proofs: the displayed cart and the server's cart -/

theorem cartReadFailed_append (xs ys : List Event) :
    cartReadFailed (xs ++ ys) = (cartReadFailed xs || cartReadFailed ys) := by
  simp [cartReadFailed]

/-- A cart read that did not fail leaves the displayed cart equal to the
server's cart. -/
theorem fetchCart_synced {W : Type} (srv : Server W) (sessionId : String)
    (serverCart : W → List CartItem) (hs : KeepsCart srv sessionId serverCart)
    (c : Client) (w : W)
    (hok : cartReadFailed (fetchCart srv sessionId c w).trace = false) :
    (fetchCart srv sessionId c w).client.cart
      = serverCart (fetchCart srv sessionId c w).server := by
  have hk := hs.getCart_keeps w
  have hr := hs.getCart_reads w
  rcases h : srv (.getCart sessionId) w with ⟨resp, w'⟩
  rw [h] at hk hr
  rcases resp with m | b | (m | d)
  · simp [fetchCart, h, cartReadFailed] at hok
  · simp [fetchCart, h, cartReadFailed] at hok
  · simp [fetchCart, h, cartReadFailed] at hok
  · simp only [fetchCart, h]
    rw [hr d rfl]
    exact hk.symm

/-- A products read keeps the displayed cart equal to the server's cart. -/
theorem fetchProducts_synced {W : Type} (srv : Server W) (sessionId : String)
    (serverCart : W → List CartItem) (hs : KeepsCart srv sessionId serverCart)
    (c : Client) (w : W) (h0 : c.cart = serverCart w) :
    (fetchProducts srv c w).client.cart = serverCart (fetchProducts srv c w).server := by
  rw [fetchProducts_cart, fetchProducts_server, hs.getProducts_keeps, h0]

/-- The cart read followed by the products read, as `addToCart` and
`createOrder` do after their mutation. -/
theorem refetch_both_synced {W : Type} (srv : Server W) (sessionId : String)
    (serverCart : W → List CartItem) (hs : KeepsCart srv sessionId serverCart)
    (c : Client) (w : W)
    (hok : cartReadFailed (fetchCart srv sessionId c w).trace = false) :
    (fetchProducts srv (fetchCart srv sessionId c w).client
        (fetchCart srv sessionId c w).server).client.cart
      = serverCart (fetchProducts srv (fetchCart srv sessionId c w).client
        (fetchCart srv sessionId c w).server).server :=
  fetchProducts_synced srv sessionId serverCart hs _ _
    (fetchCart_synced srv sessionId serverCart hs c w hok)

/-- The model backend keeps its cart in the sense of `KeepsCart`. -/
theorem backend_keepsCart (sessionId : String) :
    KeepsCart Backend.respond sessionId Backend.cart where
  getCart_reads := by
    intro w data h
    unfold Backend.respond at h
    rcases hsc : w.script with _ | ⟨fate, rest⟩
    · simp [hsc] at h
      subst h
      rfl
    · cases fate <;> simp [hsc] at h
      subst h
      rfl
  getCart_keeps := by
    intro w
    unfold Backend.respond
    rcases hsc : w.script with _ | ⟨fate, rest⟩
    · simp
    · cases fate <;> simp
  getProducts_keeps := by
    intro w
    unfold Backend.respond
    rcases hsc : w.script with _ | ⟨fate, rest⟩
    · simp
    · cases fate <;> simp
  getOrders_keeps := by
    intro w
    unfold Backend.respond
    rcases hsc : w.script with _ | ⟨fate, rest⟩
    · simp
    · cases fate <;> simp
  postOrder_keeps := by
    intro items w
    unfold Backend.respond
    rcases hsc : w.script with _ | ⟨fate, rest⟩
    · simp
    · cases fate <;> simp
  failed_keeps := by
    intro r w hf
    unfold Backend.respond at hf ⊢
    rcases hsc : w.script with _ | ⟨fate, rest⟩
    · rw [hsc] at hf
      cases r <;> simp [Resp.failed] at hf
    · rw [hsc] at hf
      cases fate
      · cases r <;> simp [Resp.failed] at hf
      · simp
      · simp

/-- C2, the claim fails, in two ways.  First: the displayed cart and the
server's cart are both empty; `addToCart` is performed, its POST succeeds and its
cart read fails in transport; afterwards the displayed cart is still empty while
the server's cart holds the added item.  Second: from the same synced state two
calls of `addToCart` overlap, every request succeeds; when the first call has
returned (only the second call is pending, waiting for its cart read) the
displayed cart holds quantity 1 while the server's cart holds quantity 2, and no
cart read has failed. -/
theorem addToCart_drift :
    scenarioClient.cart = flakyBackend.cart ∧
    (perform Backend.respond "s" (.addToCart 1) scenarioClient flakyBackend).client.cart = [] ∧
    (perform Backend.respond "s" (.addToCart 1) scenarioClient flakyBackend).server.cart
      = [⟨1, 1⟩] ∧
    (perform Backend.respond "s" (.addToCart 1) scenarioClient flakyBackend).client.cart
      ≠ (perform Backend.respond "s" (.addToCart 1) scenarioClient flakyBackend).server.cart ∧
    idleApp.client.cart = calmBackend.cart ∧
    (serveAll Backend.respond "s" idleApp calmBackend overlappingAdds).map
      (fun x => (x.1.client.cart, x.2.cart, x.1.pending, cartReadFailed x.1.trace))
      = some ([⟨1, 1⟩], [⟨1, 2⟩], [.addCart], false) := by
  refine ⟨rfl, rfl, rfl, ?_, rfl, rfl⟩
  decide

/-- An action run from start to return with nothing else in between: over any
backend that keeps the session's cart, starting from a state in which the
displayed cart equals the server's cart, if no cart read failed during the
action then the displayed cart equals the server's cart after it. -/
theorem perform_cart_synced (W : Type) (srv : Server W) (sessionId : String)
    (serverCart : W → List CartItem) (hs : KeepsCart srv sessionId serverCart)
    (a : Action) (c : Client) (w : W)
    (h0 : c.cart = serverCart w)
    (hok : cartReadFailed (perform srv sessionId a c w).trace = false) :
    (perform srv sessionId a c w).client.cart
      = serverCart (perform srv sessionId a c w).server := by
  cases a with
  | addToCart productId =>
    have hf := hs.failed_keeps (.postItem sessionId productId 1) w
    rcases h : srv (.postItem sessionId productId 1) w with ⟨resp, w'⟩
    rw [h] at hf
    rcases resp with m | (m | d) | b
    · simpa [perform, addToCart, h, h0] using (hf rfl).symm
    · simpa [perform, addToCart, h, h0] using (hf rfl).symm
    · simpa [perform, addToCart, h, h0] using (hf rfl).symm
    · simp only [perform, addToCart, h, andThen_trace, andThen_client, andThen_server,
        cartReadFailed_append, Bool.or_eq_false_iff] at hok ⊢
      exact refetch_both_synced srv sessionId serverCart hs c w' hok.1.2
  | updateCartItem productId quantity =>
    by_cases hq : quantity = 0
    · have hf := hs.failed_keeps (.deleteItem sessionId productId) w
      rcases h : srv (.deleteItem sessionId productId) w with ⟨resp, w'⟩
      rw [h] at hf
      rcases resp with m | b | b
      · simpa [perform, updateCartItem, hq, removeFromCart, h, h0] using (hf rfl).symm
      · simpa [perform, updateCartItem, hq, removeFromCart, h, h0] using (hf rfl).symm
      · simp only [perform, updateCartItem, hq, if_true, removeFromCart, h, andThen_trace,
          andThen_client, andThen_server, cartReadFailed_append,
          Bool.or_eq_false_iff] at hok ⊢
        exact fetchCart_synced srv sessionId serverCart hs c w' hok.2
    · have hf := hs.failed_keeps (.putItem sessionId productId quantity) w
      rcases h : srv (.putItem sessionId productId quantity) w with ⟨resp, w'⟩
      rw [h] at hf
      rcases resp with m | (m | d) | b
      · simpa [perform, updateCartItem, hq, h, h0] using (hf rfl).symm
      · simpa [perform, updateCartItem, hq, h, h0] using (hf rfl).symm
      · simpa [perform, updateCartItem, hq, h, h0] using (hf rfl).symm
      · simp only [perform, updateCartItem, hq, if_false, h, andThen_trace,
          andThen_client, andThen_server, cartReadFailed_append,
          Bool.or_eq_false_iff] at hok ⊢
        exact fetchCart_synced srv sessionId serverCart hs c w' hok.2
  | removeFromCart productId =>
    have hf := hs.failed_keeps (.deleteItem sessionId productId) w
    rcases h : srv (.deleteItem sessionId productId) w with ⟨resp, w'⟩
    rw [h] at hf
    rcases resp with m | b | b
    · simpa [perform, removeFromCart, h, h0] using (hf rfl).symm
    · simpa [perform, removeFromCart, h, h0] using (hf rfl).symm
    · simp only [perform, removeFromCart, h, andThen_trace,
        andThen_client, andThen_server, cartReadFailed_append,
        Bool.or_eq_false_iff] at hok ⊢
      exact fetchCart_synced srv sessionId serverCart hs c w' hok.2
  | createOrder =>
    by_cases hc : c.cart.length = 0
    · simpa [perform, createOrder, hc] using h0
    · have hp := hs.postOrder_keeps c.cart w
      rcases h : srv (.postOrder c.cart) w with ⟨resp, w₁⟩
      rw [h] at hp
      simp only at hp
      rcases resp with m | (m | d) | (m | order)
      · simp only [perform, createOrder, hc, if_false, h]
        rw [h0]
        exact hp.symm
      · simp only [perform, createOrder, hc, if_false, h]
        rw [h0]
        exact hp.symm
      · simp only [perform, createOrder, hc, if_false, h]
        rw [h0]
        exact hp.symm
      · simp only [perform, createOrder, hc, if_false, h]
        rw [h0]
        exact hp.symm
      · have hf2 := hs.failed_keeps (.deleteCart sessionId) w₁
        rcases h2 : srv (.deleteCart sessionId) w₁ with ⟨resp2, w₂⟩
        rw [h2] at hf2
        rcases resp2 with m | b | b
        · simp only [perform, createOrder, hc, if_false, h, h2]
          rw [h0, ← hp]
          exact (hf2 rfl).symm
        · simp only [perform, createOrder, hc, if_false, h, h2, andThen_trace,
            andThen_client, andThen_server, cartReadFailed_append,
            Bool.or_eq_false_iff] at hok ⊢
          exact refetch_both_synced srv sessionId serverCart hs c w₂ hok.1.1.2
        · simp only [perform, createOrder, hc, if_false, h, h2, andThen_trace,
            andThen_client, andThen_server, cartReadFailed_append,
            Bool.or_eq_false_iff] at hok ⊢
          exact refetch_both_synced srv sessionId serverCart hs c w₂ hok.1.1.2

/-! ## Proofs: the displayed cart under overlapping actions -/

theorem any_eraseIdx_keep (l : List Task) (k : Nat) (t : Task)
    (hget : l[k]? = some t) (ht : t.awaitsCartRead = false)
    (hany : l.any Task.awaitsCartRead = true) :
    (l.eraseIdx k).any Task.awaitsCartRead = true := by
  induction l generalizing k with
  | nil => simp at hget
  | cons a l ih =>
    cases k with
    | zero =>
      simp only [List.getElem?_cons_zero, Option.some.injEq] at hget
      subst hget
      simpa [ht] using hany
    | succ k =>
      simp only [List.getElem?_cons_succ] at hget
      simp only [List.eraseIdx_cons_succ, List.any_cons, Bool.or_eq_true] at hany ⊢
      rcases hany with h | h
      · exact Or.inl h
      · exact Or.inr (ih k hget h)

theorem accounted_grow {W : Type} (serverCart : W → List CartItem) (s : App) (w : W)
    (h : CartAccounted serverCart s w) (c' : Client) (hc : c'.cart = s.client.cart)
    (ts : List Task) (es : List Event) :
    CartAccounted serverCart ⟨c', s.pending ++ ts, s.trace ++ es⟩ w := by
  rcases h with h | h | h
  · exact Or.inl (hc.trans h)
  · exact Or.inr (Or.inl (by simp [cartReadFailed_append, h]))
  · exact Or.inr (Or.inr (by simp [List.any_append, h]))

theorem accounted_neutral {W : Type} (serverCart : W → List CartItem) (s : App) (w w' : W)
    (h : CartAccounted serverCart s w) (k : Nat) (t : Task)
    (hget : s.pending[k]? = some t) (ht : t.awaitsCartRead = false)
    (c' : Client) (hc : c'.cart = s.client.cart) (hw : serverCart w' = serverCart w)
    (ts : List Task) (es : List Event) :
    CartAccounted serverCart ⟨c', s.pending.eraseIdx k ++ ts, s.trace ++ es⟩ w' := by
  rcases h with h | h | h
  · exact Or.inl (by rw [hc, h, hw])
  · exact Or.inr (Or.inl (by simp [cartReadFailed_append, h]))
  · exact Or.inr (Or.inr (by simp [List.any_append, any_eraseIdx_keep _ k t hget ht h]))

theorem accounted_click {W : Type} (serverCart : W → List CartItem) (sessionId : String)
    (s s' : App) (w : W) (h : CartAccounted serverCart s w) (i : Input)
    (hi : i.isClick = true) (hstep : step sessionId s i = some s') :
    CartAccounted serverCart s' w := by
  cases i with
  | settle k r => simp [Input.isClick] at hi
  | clickAdd productId =>
    simp only [step] at hstep
    split at hstep
    · cases hstep
      exact accounted_grow serverCart s w h _ rfl _ _
    · cases hstep
  | clickMinus item =>
    simp only [step] at hstep
    split at hstep
    · cases hstep
      unfold App.startUpdate
      split <;> exact accounted_grow serverCart s w h _ rfl _ _
    · cases hstep
  | clickPlus item =>
    simp only [step] at hstep
    split at hstep
    · cases hstep
      unfold App.startUpdate
      split <;> exact accounted_grow serverCart s w h _ rfl _ _
    · cases hstep
  | clickRemove item =>
    simp only [step] at hstep
    split at hstep
    · cases hstep
      exact accounted_grow serverCart s w h _ rfl _ _
    · cases hstep
  | clickCreateOrder =>
    simp only [step] at hstep
    split at hstep
    · cases hstep
      exact accounted_grow serverCart s w h _ rfl _ _
    · cases hstep
  | clickCart =>
    simp only [step] at hstep
    split at hstep
    · cases hstep
      simpa using accounted_grow serverCart s w h
        { s.client with showCart := !s.client.showCart, showOrders := false } rfl [] []
    · cases hstep
  | clickOrders =>
    simp only [step] at hstep
    split at hstep
    · split at hstep
      · cases hstep
        exact accounted_grow serverCart s w h
          { s.client with showOrders := !s.client.showOrders, showCart := false } rfl _ _
      · cases hstep
        simpa using accounted_grow serverCart s w h
          { s.client with showOrders := !s.client.showOrders, showCart := false } rfl [] []
    · cases hstep


theorem settleProducts_cart (resp : Resp (List Product)) (c : Client) :
    (settleProducts resp c).cart = c.cart := by
  rcases resp with m | b | (m | d) <;> rfl

theorem settleOrders_cart (resp : Resp (List Order)) (c : Client) :
    (settleOrders resp c).1.cart = c.cart := by
  rcases resp with m | b | (m | d) <;> rfl

theorem accounted_due {W : Type} (serverCart : W → List CartItem) (c' : Client) (w' : W)
    (ts : List Task) (t' : Task) (ht : t'.awaitsCartRead = true) (es : List Event) :
    CartAccounted serverCart ⟨c', ts ++ [t'], es⟩ w' :=
  Or.inr (Or.inr (by simp [List.any_append, ht]))

theorem accounted_cartRead {W : Type} (serverCart : W → List CartItem) (w w' : W)
    (resp : Resp CartBody) (c : Client)
    (hrd : ∀ data, resp = .ok (.ok data) → data.items.getD [] = serverCart w)
    (hk : serverCart w' = serverCart w) (ts : List Task) (es es' : List Event) :
    CartAccounted serverCart
      ⟨(settleCart resp c).1, ts, es ++ (settleCart resp c).2 ++ es'⟩ w' := by
  rcases resp with m | b | (m | d)
  · exact Or.inr (Or.inl (by simp [settleCart, cartReadFailed]))
  · exact Or.inr (Or.inl (by simp [settleCart, cartReadFailed]))
  · exact Or.inr (Or.inl (by simp [settleCart, cartReadFailed]))
  · refine Or.inl ?_
    show d.items.getD [] = serverCart w'
    rw [hrd d rfl, hk]

theorem accounted_deliver {W : Type} (srv : Server W) (sessionId : String)
    (serverCart : W → List CartItem) (hs : KeepsCart srv sessionId serverCart)
    (s s' : App) (w w' : W) (h : CartAccounted serverCart s w) (k : Nat)
    (hserve : serve srv sessionId s w (.deliver k) = some (s', w')) :
    CartAccounted serverCart s' w' := by
  simp only [serve, List.get?_eq_getElem?] at hserve
  rcases hget : s.pending[k]? with _ | t
  · simp [hget] at hserve
  · simp only [hget, step, List.get?_eq_getElem?] at hserve
    cases t with
    | loadProducts =>
      have hk := hs.getProducts_keeps w
      rcases hr : srv .getProducts w with ⟨resp, w₁⟩
      simp only [Task.request, hr, Settled.of, resume, Option.map_some', Option.some.injEq,
        Prod.mk.injEq] at hserve hk
      obtain ⟨rfl, rfl⟩ := hserve
      simp only [List.append_assoc]
      exact accounted_neutral serverCart s w w₁ h k _ hget rfl _ (settleProducts_cart _ _) hk _ _
    | addProducts =>
      have hk := hs.getProducts_keeps w
      rcases hr : srv .getProducts w with ⟨resp, w₁⟩
      simp only [Task.request, hr, Settled.of, resume, Option.map_some', Option.some.injEq,
        Prod.mk.injEq] at hserve hk
      obtain ⟨rfl, rfl⟩ := hserve
      simp only [List.append_assoc]
      exact accounted_neutral serverCart s w w₁ h k _ hget rfl _ (settleProducts_cart _ _) hk _ _
    | orderProducts =>
      have hk := hs.getProducts_keeps w
      rcases hr : srv .getProducts w with ⟨resp, w₁⟩
      simp only [Task.request, hr, Settled.of, resume, Option.map_some', Option.some.injEq,
        Prod.mk.injEq] at hserve hk
      obtain ⟨rfl, rfl⟩ := hserve
      simp only [List.append_assoc]
      exact accounted_neutral serverCart s w w₁ h k _ hget rfl _ (settleProducts_cart _ _) hk _ _
    | loadOrders =>
      have hk := hs.getOrders_keeps w
      rcases hr : srv .getOrders w with ⟨resp, w₁⟩
      simp only [Task.request, hr, Settled.of, resume, Option.map_some', Option.some.injEq,
        Prod.mk.injEq] at hserve hk
      obtain ⟨rfl, rfl⟩ := hserve
      simp only [List.append_assoc]
      exact accounted_neutral serverCart s w w₁ h k _ hget rfl _ (settleOrders_cart _ _) hk _ _
    | loadCart =>
      have hk := hs.getCart_keeps w
      have hrd := hs.getCart_reads w
      rcases hr : srv (.getCart sessionId) w with ⟨resp, w₁⟩
      simp only [Task.request, hr, Settled.of, resume, Option.map_some', Option.some.injEq,
        Prod.mk.injEq] at hserve hk hrd
      obtain ⟨rfl, rfl⟩ := hserve
      exact accounted_cartRead serverCart w w₁ resp s.client hrd hk _ _ _
    | addCart =>
      have hk := hs.getCart_keeps w
      have hrd := hs.getCart_reads w
      rcases hr : srv (.getCart sessionId) w with ⟨resp, w₁⟩
      simp only [Task.request, hr, Settled.of, resume, Option.map_some', Option.some.injEq,
        Prod.mk.injEq] at hserve hk hrd
      obtain ⟨rfl, rfl⟩ := hserve
      exact accounted_cartRead serverCart w w₁ resp s.client hrd hk _ _ _
    | updateCart =>
      have hk := hs.getCart_keeps w
      have hrd := hs.getCart_reads w
      rcases hr : srv (.getCart sessionId) w with ⟨resp, w₁⟩
      simp only [Task.request, hr, Settled.of, resume, Option.map_some', Option.some.injEq,
        Prod.mk.injEq] at hserve hk hrd
      obtain ⟨rfl, rfl⟩ := hserve
      exact accounted_cartRead serverCart w w₁ resp s.client hrd hk _ _ _
    | removeCart =>
      have hk := hs.getCart_keeps w
      have hrd := hs.getCart_reads w
      rcases hr : srv (.getCart sessionId) w with ⟨resp, w₁⟩
      simp only [Task.request, hr, Settled.of, resume, Option.map_some', Option.some.injEq,
        Prod.mk.injEq] at hserve hk hrd
      obtain ⟨rfl, rfl⟩ := hserve
      exact accounted_cartRead serverCart w w₁ resp s.client hrd hk _ _ _
    | orderCart =>
      have hk := hs.getCart_keeps w
      have hrd := hs.getCart_reads w
      rcases hr : srv (.getCart sessionId) w with ⟨resp, w₁⟩
      simp only [Task.request, hr, Settled.of, resume, Option.map_some', Option.some.injEq,
        Prod.mk.injEq] at hserve hk hrd
      obtain ⟨rfl, rfl⟩ := hserve
      exact accounted_cartRead serverCart w w₁ resp s.client hrd hk _ _ _
    | addPost productId =>
      have hk := hs.failed_keeps (.postItem sessionId productId 1) w
      rcases hr : srv (.postItem sessionId productId 1) w with ⟨resp, w₁⟩
      simp only [Task.request, hr, Settled.of] at hserve hk
      rcases resp with m | (m | d) | b <;>
        simp only [resume, Option.map_some', Option.some.injEq, Prod.mk.injEq] at hserve <;>
        obtain ⟨rfl, rfl⟩ := hserve
      · simp only [List.append_assoc]
        exact accounted_neutral serverCart s w w₁ h k _ hget rfl _ rfl (hk rfl) _ _
      · simp only [List.append_assoc]
        exact accounted_neutral serverCart s w w₁ h k _ hget rfl _ rfl (hk rfl) _ _
      · simp only [List.append_assoc]
        exact accounted_neutral serverCart s w w₁ h k _ hget rfl _ rfl (hk rfl) _ _
      · exact accounted_due serverCart _ w₁ _ .addCart rfl _
    | updatePut productId quantity =>
      have hk := hs.failed_keeps (.putItem sessionId productId quantity) w
      rcases hr : srv (.putItem sessionId productId quantity) w with ⟨resp, w₁⟩
      simp only [Task.request, hr, Settled.of] at hserve hk
      rcases resp with m | (m | d) | b <;>
        simp only [resume, Option.map_some', Option.some.injEq, Prod.mk.injEq] at hserve <;>
        obtain ⟨rfl, rfl⟩ := hserve
      · simp only [List.append_assoc]
        exact accounted_neutral serverCart s w w₁ h k _ hget rfl _ rfl (hk rfl) _ _
      · simp only [List.append_assoc]
        exact accounted_neutral serverCart s w w₁ h k _ hget rfl _ rfl (hk rfl) _ _
      · simp only [List.append_assoc]
        exact accounted_neutral serverCart s w w₁ h k _ hget rfl _ rfl (hk rfl) _ _
      · exact accounted_due serverCart _ w₁ _ .updateCart rfl _
    | removeDelete productId =>
      have hk := hs.failed_keeps (.deleteItem sessionId productId) w
      rcases hr : srv (.deleteItem sessionId productId) w with ⟨resp, w₁⟩
      simp only [Task.request, hr, Settled.of] at hserve hk
      rcases resp with m | b | b <;>
        simp only [resume, Option.map_some', Option.some.injEq, Prod.mk.injEq] at hserve <;>
        obtain ⟨rfl, rfl⟩ := hserve
      · simp only [List.append_assoc]
        exact accounted_neutral serverCart s w w₁ h k _ hget rfl _ rfl (hk rfl) _ _
      · simp only [List.append_assoc]
        exact accounted_neutral serverCart s w w₁ h k _ hget rfl _ rfl (hk rfl) _ _
      · exact accounted_due serverCart _ w₁ _ .removeCart rfl _
    | orderPost cart_items =>
      have hk := hs.postOrder_keeps cart_items w
      rcases hr : srv (.postOrder cart_items) w with ⟨resp, w₁⟩
      simp only [Task.request, hr, Settled.of] at hserve hk
      rcases resp with m | (m | d) | (m | order) <;>
        simp only [resume, Option.map_some', Option.some.injEq, Prod.mk.injEq] at hserve <;>
        obtain ⟨rfl, rfl⟩ := hserve <;>
        simp only [List.append_assoc] <;>
        exact accounted_neutral serverCart s w w₁ h k _ hget rfl _ rfl hk _ _
    | orderClear =>
      have hk := hs.failed_keeps (.deleteCart sessionId) w
      rcases hr : srv (.deleteCart sessionId) w with ⟨resp, w₁⟩
      simp only [Task.request, hr, Settled.of] at hserve hk
      rcases resp with m | b | b <;>
        simp only [resume, Option.map_some', Option.some.injEq, Prod.mk.injEq] at hserve <;>
        obtain ⟨rfl, rfl⟩ := hserve
      · simp only [List.append_assoc]
        exact accounted_neutral serverCart s w w₁ h k _ hget rfl _ rfl (hk rfl) _ _
      · exact accounted_due serverCart _ w₁ _ .orderCart rfl _
      · exact accounted_due serverCart _ w₁ _ .orderCart rfl _

theorem accounted_serve {W : Type} (srv : Server W) (sessionId : String)
    (serverCart : W → List CartItem) (hs : KeepsCart srv sessionId serverCart)
    (s s' : App) (w w' : W) (h : CartAccounted serverCart s w) (m : Move)
    (hserve : serve srv sessionId s w m = some (s', w')) :
    CartAccounted serverCart s' w' := by
  cases m with
  | deliver k => exact accounted_deliver srv sessionId serverCart hs s s' w w' h k hserve
  | click i =>
    simp only [serve] at hserve
    split at hserve
    · rename_i hi
      rcases hstep : step sessionId s i with _ | s₁
      · simp [hstep] at hserve
      · simp only [hstep, Option.map_some', Option.some.injEq, Prod.mk.injEq] at hserve
        obtain ⟨rfl, rfl⟩ := hserve
        exact accounted_click serverCart sessionId s s₁ w h i hi hstep
    · cases hserve

theorem accounted_serveAll {W : Type} (srv : Server W) (sessionId : String)
    (serverCart : W → List CartItem) (hs : KeepsCart srv sessionId serverCart)
    (moves : List Move) (s s' : App) (w w' : W) (h : CartAccounted serverCart s w)
    (hrun : serveAll srv sessionId s w moves = some (s', w')) :
    CartAccounted serverCart s' w' := by
  induction moves generalizing s w with
  | nil =>
    simp only [serveAll, Option.some.injEq, Prod.mk.injEq] at hrun
    obtain ⟨rfl, rfl⟩ := hrun
    exact h
  | cons m ms ih =>
    simp only [serveAll] at hrun
    rcases hm : serve srv sessionId s w m with _ | ⟨s₁, w₁⟩
    · simp [hm] at hrun
    · simp only [hm] at hrun
      exact ih s₁ w₁ (accounted_serve srv sessionId serverCart hs s s₁ w w₁ h m hm) hrun

/-- C2 as amended: over any backend that keeps the session's cart (a successful
cart read answers the stored cart; cart, products and orders reads and the order
POST leave it alone; a failed request leaves it alone), each request being
answered at the moment its `fetch` settles: starting from a state in which the
displayed cart equals the server's cart, after any sequence of clicks and
settled requests, overlapping actions included, if no cart read has failed and
no pending call is waiting for its cart read (so in particular once an action
has returned and nothing else is pending), the displayed cart equals the
server's cart. -/
theorem cart_synced_when_no_read_due (W : Type) (srv : Server W) (sessionId : String)
    (serverCart : W → List CartItem) (hs : KeepsCart srv sessionId serverCart)
    (s₀ s : App) (w₀ w : W) (moves : List Move)
    (h0 : s₀.client.cart = serverCart w₀)
    (hrun : serveAll srv sessionId s₀ w₀ moves = some (s, w))
    (hok : cartReadFailed s.trace = false)
    (hidle : s.pending.any Task.awaitsCartRead = false) :
    s.client.cart = serverCart w := by
  rcases accounted_serveAll srv sessionId serverCart hs moves s₀ s w₀ w (Or.inl h0) hrun
    with h | h | h
  · exact h
  · rw [hok] at h
    cases h
  · rw [hidle] at h
    cases h

/-- An instance of the amended C2: one call of `addToCart`, from the click to
its return, all requests succeeding; nothing is pending at the end and the
displayed cart is the server's cart. -/
theorem cart_synced_when_no_read_due_witness :
    idleApp.client.cart = calmBackend.cart ∧
    serveAll Backend.respond "s" idleApp calmBackend singleAdd
      = some (singleAddEnd, singleAddBackend) ∧
    singleAddEnd.pending = [] ∧
    singleAddEnd.client.cart = singleAddBackend.cart :=
  ⟨rfl, rfl, rfl,
   cart_synced_when_no_read_due Backend Backend.respond "s" Backend.cart
     (backend_keepsCart "s") idleApp singleAddEnd calmBackend singleAddBackend singleAdd
     rfl rfl rfl rfl⟩

/-! ## Proofs: the session identifier -/

theorem freshSessionId_ne_empty (now : Nat) : freshSessionId now ≠ "" := by
  intro h
  have hl := congrArg String.length h
  simp only [freshSessionId, String.length_append] at hl
  have h8 : "session-".length = 8 := by decide
  have h0 : "".length = 0 := by decide
  omega

theorem initSessionId_ne_empty (storage : Storage) (now : Nat) :
    initSessionId storage now ≠ "" := by
  unfold initSessionId
  cases hs : storage.getItem "sessionId" with
  | none => exact freshSessionId_ne_empty now
  | some saved =>
    by_cases he : saved = ""
    · simpa [he] using freshSessionId_ne_empty now
    · simp [he]

/-- C6, the claim fails: the empty string is stored under the key; the first
startup does not return the stored value but generates an identifier. -/
theorem startup_empty_string_stored :
    emptyStringStored.getItem "sessionId" = some "" ∧
    (startup emptyStringStored 5).1 = "session-5" ∧
    (startup emptyStringStored 5).1 ≠ "" := by
  refine ⟨by decide, by decide, by decide⟩

/-- C6 as amended: for every storage content and every pair of clock values,
the second of two startups in a row returns the identifier of the first and
leaves the storage as the first left it, which holds that identifier under the
key; the first startup returns the stored value when a non-empty one is stored,
and generates `session-<clock>` when nothing or the empty string is stored. -/
theorem startup_twice (storage : Storage) (now₁ now₂ : Nat) :
    (startup (startup storage now₁).2 now₂).1 = (startup storage now₁).1 ∧
    (startup (startup storage now₁).2 now₂).2 = (startup storage now₁).2 ∧
    (startup storage now₁).2.getItem "sessionId" = some (startup storage now₁).1 ∧
    (∀ saved, storage.getItem "sessionId" = some saved → saved ≠ "" →
      (startup storage now₁).1 = saved) ∧
    (storage.getItem "sessionId" = none ∨ storage.getItem "sessionId" = some "" →
      (startup storage now₁).1 = freshSessionId now₁) := by
  have hne := initSessionId_ne_empty storage now₁
  have hget : (startup storage now₁).2.getItem "sessionId"
      = some (initSessionId storage now₁) := by
    simp [startup, Storage.setItem, Storage.getItem]
  have hsecond : (startup (startup storage now₁).2 now₂).1 = initSessionId storage now₁ := by
    show initSessionId (startup storage now₁).2 now₂ = _
    unfold initSessionId
    rw [hget]
    simp only [hne, if_false]
    rfl
  refine ⟨hsecond, ?_, hget, ?_, ?_⟩
  · show Storage.setItem (startup storage now₁).2 "sessionId"
        (startup (startup storage now₁).2 now₂).1 = _
    rw [hsecond]
    funext k
    by_cases hk : k = "sessionId" <;> simp [startup, Storage.setItem, hk]
  · intro saved hs hn
    simp [startup, initSessionId, hs, hn]
  · rintro (hs | hs) <;> simp [startup, initSessionId, hs]

/-- An instance of the amended C6: `session-7` is stored; both startups return
it. -/
theorem startup_twice_witness :
    (startup sessionStored 8).1 = "session-7" ∧
    (startup (startup sessionStored 8).2 9).1 = (startup sessionStored 8).1 :=
  ⟨(startup_twice sessionStored 8 9).2.2.2.1 "session-7" (by decide) (by decide),
   (startup_twice sessionStored 8 9).1⟩

/-! ## Proofs: dispatch while a mutation is pending -/

/-- C8, the claim fails: after the products have loaded, two clicks on "Add to
Cart" are both accepted although the POST of the first has not settled; the
state reached has two calls of `addToCart` pending at once. -/
theorem two_mutations_pending :
    (run "s" (App.mounted "s")
        [.settle 0 (.products (.ok (.ok [productA]))), .clickAdd 1, .clickAdd 1]).map
      App.pending = some [.loadCart, .addPost 1, .addPost 1] ∧
    (run "s" (App.mounted "s")
        [.settle 0 (.products (.ok (.ok [productA]))), .clickAdd 1, .clickAdd 1]).map
      App.mutationsPending = some 2 := by
  constructor <;> rfl

theorem mutationsPending_start (sessionId : String) (s : App) (t : Task)
    (ht : t.isMutation = true) :
    (s.start sessionId t).mutationsPending = s.mutationsPending + 1 := by
  simp [App.start, App.mutationsPending, List.filter_append, ht]

/-- Repeated clicks on an enabled "Add to Cart" button are all accepted. -/
theorem run_clickAdd_replicate (sessionId : String) (productId : ProductId) (n : Nat)
    (s : App)
    (hv : (viewRendered s.client &&
      s.client.products.any (fun p => p.id == productId && p.stock != 0)) = true) :
    ∃ s', run sessionId s (List.replicate n (.clickAdd productId)) = some s' ∧
      s'.client = s.client ∧ s'.mutationsPending = s.mutationsPending + n := by
  induction n generalizing s with
  | zero => exact ⟨s, rfl, rfl, rfl⟩
  | succ n ih =>
    have hstep : step sessionId s (.clickAdd productId)
        = some (s.start sessionId (.addPost productId)) := by
      simp only [step, hv, if_true]
    obtain ⟨s', hrun, hcl, hmp⟩ := ih (s.start sessionId (.addPost productId)) hv
    refine ⟨s', ?_, hcl, ?_⟩
    · simp only [List.replicate_succ, run, hstep]
      exact hrun
    · rw [hmp, mutationsPending_start sessionId s (.addPost productId) rfl]
      omega

/-- C8 as amended: in the step function of the component, whether a click is
accepted depends on the state hooks only (the view is rendered, the control is
rendered and not disabled), not on the calls in flight; and for every `n` a
state with `n` mutating actions pending at once is reachable from the mounted
component. -/
theorem dispatch_not_serialized (sessionId : String) :
    (∀ (s : App) (pending : List Task) (trace : List Event) (i : Input),
      i.isClick = true →
      (step sessionId { s with pending := pending, trace := trace } i).isSome
        = (step sessionId s i).isSome) ∧
    (∀ n : Nat, ∃ inputs s, run sessionId (App.mounted sessionId) inputs = some s ∧
      s.mutationsPending = n) := by
  constructor
  · intro s pending trace i hi
    cases i with
    | settle k r => simp [Input.isClick] at hi
    | clickAdd productId => simp only [step]; split <;> rfl
    | clickMinus item => simp only [step]; split <;> rfl
    | clickPlus item => simp only [step]; split <;> rfl
    | clickRemove item => simp only [step]; split <;> rfl
    | clickCreateOrder => simp only [step]; split <;> rfl
    | clickCart => simp only [step]; split <;> rfl
    | clickOrders =>
      simp only [step]
      split
      · split <;> rfl
      · rfl
  · intro n
    have hfirst : step sessionId (App.mounted sessionId)
        (.settle 0 (.products (.ok (.ok [productA])))) =
        some { client := { Client.init with products := [productA], loading := false },
               pending := [.loadCart],
               trace := (App.mounted sessionId).trace } := by
      simp [step, App.mounted, resume, settleProducts, Client.init]
    obtain ⟨s', hrun, _, hmp⟩ := run_clickAdd_replicate sessionId 1 n
      { client := { Client.init with products := [productA], loading := false },
        pending := [.loadCart],
        trace := (App.mounted sessionId).trace }
      rfl
    refine ⟨.settle 0 (.products (.ok (.ok [productA]))) :: List.replicate n (.clickAdd 1),
      s', ?_, ?_⟩
    · simp only [run, hfirst]
      exact hrun
    · rw [hmp]
      simp [App.mutationsPending, Task.isMutation]

/-- An instance of the amended C8: with the products loaded and one `addToCart`
pending, the click on "Add to Cart" is accepted exactly as with nothing
pending. -/
theorem dispatch_not_serialized_witness :
    (step "s" { client := scenarioClient, pending := [.addPost 1], trace := [] }
        (.clickAdd 1)).isSome
      = (step "s" { client := scenarioClient, pending := [], trace := [] }
        (.clickAdd 1)).isSome :=
  (dispatch_not_serialized "s").1
    { client := scenarioClient, pending := [], trace := [] } [.addPost 1] [] (.clickAdd 1) rfl

end Storefront
